import Mathlib

/-!
Shallow embedding of the CS-Predictor analysis pipeline (a Next.js app that
sends marketing assets to AI providers and assembles a fixed-shape report),
together with theorems settling the frozen claims about its specification.

The embedding follows the TypeScript sources:
  - src/lib/auth.ts                 (sign-in domain allow-list)
  - src/lib/openai-analysis.ts      (provider calls, JSON repair, fallbacks)
  - src/lib/model-service.ts        (classifier-ensemble route with mock fallback)
  - src/unnamed/part_003            (the OpenAI API route: validation, report assembly)

Modelling conventions:
  - JavaScript numbers are modelled as exact rationals; Math.round x is
    modelled as the floor of x + 1/2, which matches JS Math.round on all
    arguments (float rounding of literals is out of scope).
  - Math.random() draws are modelled by an explicit stream of rationals
    (assumed in [0,1), as Math.random guarantees); every call site consumes
    one stream position, so independence from the stream is exactly
    determinism of the original code.
  - JS strings are Lean Strings where only equality is needed, and lists of
    characters where the code inspects their text (JSON payloads, e-mails).
  - `x || d` (falsy-or) and `x ?? d` (nullish-or) are modelled by separate
    helpers, since the sources use both on numeric fields.
  - provider calls (OpenAI chat completions, the Python model service) are
    inputs of the embedded functions: an `Except` value carrying either the
    raw payload or the thrown error, exactly as the call sites observe them.
-/

namespace CSPredictor

/-- JS Math.round: round half toward positive infinity. -/
def jsRound (x : ℚ) : ℚ := (⌊x + 1/2⌋ : ℤ)

/-- JS `x || d` on an optional numeric field: `0` (and absence) is falsy. -/
def jsOrQ (x : Option ℚ) (d : ℚ) : ℚ :=
  match x with
  | some v => if v = 0 then d else v
  | none => d

/-- JS `x || d` on a string field: the empty string is falsy. -/
def jsOrS (x : Option String) (d : String) : String :=
  match x with
  | some v => if v = "" then d else v
  | none => d

/-- JS `x ?? d`: only null/undefined selects the default. -/
def jsNullishQ (x : Option ℚ) (d : ℚ) : ℚ := x.getD d

/-- Insert-or-overwrite for a JS object: assigning to an existing key keeps
its position and replaces the value; a fresh key is appended. -/
def upsert {κ α : Type} [DecidableEq κ] (m : List (κ × α)) (k : κ) (v : α) :
    List (κ × α) :=
  if m.any (fun kv => kv.1 = k) then
    m.map (fun kv => if kv.1 = k then (k, v) else kv)
  else m ++ [(k, v)]

/-- JS Object.fromEntries: build an object from entries, later duplicate keys
overwriting earlier values in place. -/
def fromEntries {κ α : Type} [DecidableEq κ] (l : List (κ × α)) : List (κ × α) :=
  l.foldl (fun m kv => upsert m kv.1 kv.2) []

/-- Lookup of a key in a JS object modelled as an entry list: the value of
the first entry carrying the key. -/
def jsGet {κ α : Type} [DecidableEq κ] (m : List (κ × α)) (k : κ) : Option α :=
  match m with
  | [] => none
  | kv :: rest => if kv.1 = k then some kv.2 else jsGet rest k

theorem upsert_keys_of_mem {κ α : Type} [DecidableEq κ]
    (m : List (κ × α)) (k : κ) (v : α)
    (h : m.any (fun kv => kv.1 = k) = true) :
    (upsert m k v).map Prod.fst = m.map Prod.fst := by
  unfold upsert
  rw [if_pos h, List.map_map]
  apply List.map_congr_left
  intro kv _
  by_cases hk : kv.1 = k
  · simp [Function.comp_apply, hk]
  · simp [Function.comp_apply, hk]

theorem upsert_keys_of_not_mem {κ α : Type} [DecidableEq κ]
    (m : List (κ × α)) (k : κ) (v : α)
    (h : ¬ m.any (fun kv => kv.1 = k) = true) :
    (upsert m k v).map Prod.fst = m.map Prod.fst ++ [k] := by
  unfold upsert
  rw [if_neg h, List.map_append]
  rfl

theorem any_key_iff {κ α : Type} [DecidableEq κ] (m : List (κ × α)) (k : κ) :
    m.any (fun kv => kv.1 = k) = true ↔ k ∈ m.map Prod.fst := by
  rw [List.any_eq_true]
  constructor
  · rintro ⟨kv, hkv, hk⟩
    simp only [decide_eq_true_eq] at hk
    exact List.mem_map.mpr ⟨kv, hkv, hk⟩
  · intro hk
    rcases List.mem_map.mp hk with ⟨kv, hkv, hfst⟩
    exact ⟨kv, hkv, by simp [hfst]⟩

theorem upsert_keys_mem {κ α : Type} [DecidableEq κ]
    (m : List (κ × α)) (k : κ) (v : α) (x : κ) :
    x ∈ (upsert m k v).map Prod.fst ↔ x ∈ m.map Prod.fst ∨ x = k := by
  by_cases h : m.any (fun kv => kv.1 = k) = true
  · rw [upsert_keys_of_mem m k v h]
    have hk := (any_key_iff m k).mp h
    constructor
    · exact Or.inl
    · rintro (hx | rfl)
      · exact hx
      · exact hk
  · rw [upsert_keys_of_not_mem m k v h]
    simp

theorem upsert_keys_nodup {κ α : Type} [DecidableEq κ]
    (m : List (κ × α)) (k : κ) (v : α) (hm : (m.map Prod.fst).Nodup) :
    ((upsert m k v).map Prod.fst).Nodup := by
  by_cases h : m.any (fun kv => kv.1 = k) = true
  · rw [upsert_keys_of_mem m k v h]; exact hm
  · rw [upsert_keys_of_not_mem m k v h]
    rw [List.nodup_append]
    refine ⟨hm, List.nodup_singleton k, ?_⟩
    intro x hx
    simp only [List.mem_singleton]
    intro hxk
    subst hxk
    exact h ((any_key_iff m x).mpr hx)

theorem fromEntries_keys_aux {κ α : Type} [DecidableEq κ]
    (l : List (κ × α)) (acc : List (κ × α)) (hacc : (acc.map Prod.fst).Nodup) :
    ((l.foldl (fun m kv => upsert m kv.1 kv.2) acc).map Prod.fst).Nodup ∧
    (∀ x, x ∈ (l.foldl (fun m kv => upsert m kv.1 kv.2) acc).map Prod.fst ↔
      x ∈ acc.map Prod.fst ∨ x ∈ l.map Prod.fst) := by
  induction l generalizing acc with
  | nil => simpa using hacc
  | cons kv rest ih =>
    have h1 := ih (upsert acc kv.1 kv.2) (upsert_keys_nodup acc kv.1 kv.2 hacc)
    refine ⟨h1.1, fun x => ?_⟩
    rw [List.foldl_cons, (h1.2 x), upsert_keys_mem]
    simp only [List.map_cons, List.mem_cons]
    tauto

/-- The keys of a JS object built by Object.fromEntries have no duplicates. -/
theorem fromEntries_keys_nodup {κ α : Type} [DecidableEq κ] (l : List (κ × α)) :
    ((fromEntries l).map Prod.fst).Nodup :=
  (fromEntries_keys_aux l [] (by simp)).1

/-- A key appears in Object.fromEntries' result exactly when it appears among
the entry keys. -/
theorem fromEntries_keys_mem {κ α : Type} [DecidableEq κ]
    (l : List (κ × α)) (x : κ) :
    x ∈ (fromEntries l).map Prod.fst ↔ x ∈ l.map Prod.fst := by
  have := (fromEntries_keys_aux l [] (by simp)).2 x
  simpa [fromEntries] using this

/-! Section: Authentication (src/lib/auth.ts)

The signIn callback of authOptions: admit only when user.email is truthy and
ends with the company domain suffix. -/

/-- The allow-listed e-mail domain suffix of auth.ts, as characters. -/
def optiminasticSuffix : List Char :=
  ['@', 'o', 'p', 't', 'i', 'm', 'i', 'n', 'a', 's', 't', 'i', 'c', '.', 'c', 'o', 'm']

/-- The signIn callback of src/lib/auth.ts lines 12-23: `user.email` may be
absent (none) or a string; JS truthiness makes the empty string falsy, and
`endsWith` checks the suffix. -/
def signInCallback (email : Option (List Char)) : Bool :=
  match email with
  | none => false
  | some e => if e = [] then false else optiminasticSuffix.isSuffixOf e

/-- C9: the sign-in callback admits a user exactly when the user's e-mail is
present and ends with the string "@optiminastic.com"; every other sign-in
attempt (absent e-mail, empty e-mail, any other suffix) is rejected. The JS
truthiness guard on the empty string never breaks the equivalence, because the
non-empty suffix is a suffix of no empty string. -/
theorem signIn_iff_company_email (email : Option (List Char)) :
    signInCallback email = true ↔
      ∃ e, email = some e ∧ optiminasticSuffix.isSuffixOf e = true := by
  cases email with
  | none => simp [signInCallback]
  | some e =>
    by_cases he : e = []
    · subst he
      simp only [signInCallback, if_pos rfl]
      constructor
      · intro h; exact absurd h (by decide)
      · rintro ⟨e', he', hs⟩
        cases Option.some.inj he'
        exact absurd hs (by decide)
    · simp [signInCallback, he]

/-! Section: JSON values and JSON.parse

The normalizer of src/lib/openai-analysis.ts feeds provider payloads to
JSON.parse. We embed JSON values and a parser for the JSON grammar
(RFC 8259, as JSON.parse accepts it): numbers are kept as exact rationals,
duplicate object keys are resolved later-wins as in JS. Characters that the
file's text cannot spell directly are named constants. -/

def quoteChar : Char := Char.ofNat 34

def backslashChar : Char := Char.ofNat 92

def lbrace : Char := Char.ofNat 123

def rbrace : Char := Char.ofNat 125

def lbrack : Char := Char.ofNat 91

def rbrack : Char := Char.ofNat 93

def backtick : Char := Char.ofNat 96

/-- The characters of a string literal (used for JSON keys and payload text
that contains no brace). -/
def strL (s : String) : List Char := s.data

inductive Json where
  | null : Json
  | bool (b : Bool) : Json
  | num (q : ℚ) : Json
  | str (s : List Char) : Json
  | arr (elems : List Json) : Json
  | obj (entries : List (List Char × Json)) : Json

/-- The first key of a JSON object, used to tell two values apart without a
full decidable equality on the nested inductive. -/
def Json.firstKey : Json → Option (List Char)
  | .obj ((k, _) :: _) => some k
  | _ => none

/-- Whitespace JSON.parse skips between tokens. -/
def isJsonWs (c : Char) : Bool := c = ' ' || c = '\t' || c = '\n' || c = '\r'

def skipWs (s : List Char) : List Char := s.dropWhile isJsonWs

def isDigitCh (c : Char) : Bool := '0' ≤ c && c ≤ '9'

def digitVal (c : Char) : ℕ := c.toNat - '0'.toNat

/-- The value of a hexadecimal digit, by code point: digits 48-57, lower
case a-f at 97-102, upper case A-F at 65-70. -/
def hexVal (c : Char) : Option ℕ :=
  let n := c.toNat
  if 48 ≤ n ∧ n ≤ 57 then some (n - 48)
  else if 97 ≤ n ∧ n ≤ 102 then some (n - 87)
  else if 65 ≤ n ∧ n ≤ 70 then some (n - 55)
  else none

/-- Drop a literal text from the front of the input, or fail. -/
def dropLit : List Char → List Char → Option (List Char)
  | [], s => some s
  | _ :: _, [] => none
  | c :: cs, d :: ds => if c = d then dropLit cs ds else none

/-- Parse the body of a JSON string (the opening quote already consumed),
handling the escape sequences JSON.parse accepts and rejecting raw control
characters. Unicode escapes become the character of their code point. -/
def parseStringBody : ℕ → List Char → Option (List Char × List Char)
  | 0, _ => none
  | _ + 1, [] => none
  | fuel + 1, c :: rest =>
    if c = quoteChar then some ([], rest)
    else if c = backslashChar then
      match rest with
      | [] => none
      | e :: rest2 =>
        let cont (ch : Char) (r : List Char) : Option (List Char × List Char) :=
          (parseStringBody fuel r).map (fun p => (ch :: p.1, p.2))
        if e = quoteChar then cont quoteChar rest2
        else if e = backslashChar then cont backslashChar rest2
        else if e = '/' then cont '/' rest2
        else if e = 'b' then cont (Char.ofNat 8) rest2
        else if e = 'f' then cont (Char.ofNat 12) rest2
        else if e = 'n' then cont '\n' rest2
        else if e = 'r' then cont '\r' rest2
        else if e = 't' then cont '\t' rest2
        else if e = 'u' then
          match rest2 with
          | h1 :: h2 :: h3 :: h4 :: rest3 =>
            match hexVal h1, hexVal h2, hexVal h3, hexVal h4 with
            | some a, some b, some c3, some d =>
              cont (Char.ofNat (((a * 16 + b) * 16 + c3) * 16 + d)) rest3
            | _, _, _, _ => none
          | _ => none
        else none
    else if c.toNat < 32 then none
    else (parseStringBody fuel rest).map (fun p => (c :: p.1, p.2))

/-- Leading run of decimal digits: value, how many, and the rest. -/
def parseDigits (s : List Char) : Option (ℕ × ℕ × List Char) :=
  let ds := s.takeWhile isDigitCh
  if ds.isEmpty then none
  else some (ds.foldl (fun a c => a * 10 + digitVal c) 0, ds.length, s.dropWhile isDigitCh)

/-- The rational value of a decimal mantissa scaled by a power of ten. The
case split keeps purely integral values free of rational division, so the
kernel can evaluate the parser on concrete inputs. -/
def decScaled (m : ℤ) (e : ℤ) : ℚ :=
  if 0 ≤ e then ((m * 10 ^ e.toNat : ℤ) : ℚ)
  else (m : ℚ) / ((10 ^ (-e).toNat : ℤ) : ℚ)

/-- A JSON number: optional minus, integer part without leading zeros,
optional fraction, optional exponent; exact rational value
sign * (intPart.fracPart) * 10^exp. -/
def parseNumber (s : List Char) : Option (ℚ × List Char) :=
  let signed : Bool × List Char :=
    match s with
    | c :: rest => if c = '-' then (true, rest) else (false, s)
    | [] => (false, s)
  let neg := signed.1
  match parseDigits signed.2 with
  | none => none
  | some (iv, ilen, s2) =>
    if (signed.2.head? = some '0' ∧ ilen ≠ 1) then none
    else
      let fracPart : Option (ℕ × ℕ × List Char) :=
        match s2 with
        | c :: rest =>
          if c = '.' then
            match parseDigits rest with
            | some (fv, flen, s3) => some (fv, flen, s3)
            | none => none
          else some (0, 0, s2)
        | [] => some (0, 0, s2)
      match fracPart with
      | none => none
      | some (fv, flen, s3) =>
        let expPart : Option (ℤ × List Char) :=
          match s3 with
          | c :: rest =>
            if c = 'e' ∨ c = 'E' then
              let esigned : Bool × List Char :=
                match rest with
                | d :: r2 => if d = '-' then (true, r2) else if d = '+' then (false, r2) else (false, rest)
                | [] => (false, rest)
              match parseDigits esigned.2 with
              | some (ev, _, s4) => some (if esigned.1 then -(ev : ℤ) else (ev : ℤ), s4)
              | none => none
            else some (0, s3)
          | [] => some (0, s3)
        match expPart with
        | none => none
        | some (e, s5) =>
          let m : ℤ := (iv : ℤ) * 10 ^ flen + (fv : ℤ)
          some (decScaled (if neg then -m else m) (e - flen), s5)

mutual

/-- Parse one JSON value after skipping whitespace. -/
def parseValue : ℕ → List Char → Option (Json × List Char)
  | 0, _ => none
  | fuel + 1, s =>
    match skipWs s with
    | [] => none
    | c :: rest =>
      if c = lbrace then parseObjBody fuel rest
      else if c = lbrack then parseArrBody fuel rest
      else if c = quoteChar then
        (parseStringBody fuel rest).map (fun p => (Json.str p.1, p.2))
      else if c = 't' then
        (dropLit (strL "rue") rest).map (fun r => (Json.bool true, r))
      else if c = 'f' then
        (dropLit (strL "alse") rest).map (fun r => (Json.bool false, r))
      else if c = 'n' then
        (dropLit (strL "ull") rest).map (fun r => (Json.null, r))
      else
        (parseNumber (c :: rest)).map (fun p => (Json.num p.1, p.2))

/-- Parse an object body, the opening brace already consumed. Duplicate keys
are resolved as JS objects resolve them: later entries overwrite in place. -/
def parseObjBody : ℕ → List Char → Option (Json × List Char)
  | 0, _ => none
  | fuel + 1, s =>
    match skipWs s with
    | [] => none
    | c :: rest =>
      if c = rbrace then some (Json.obj [], rest)
      else
        (parseMembers fuel (c :: rest)).map (fun p => (Json.obj (fromEntries p.1), p.2))

/-- Parse the members of a non-empty object: string key, colon, value, then a
comma and more members or the closing brace. -/
def parseMembers : ℕ → List Char → Option (List (List Char × Json) × List Char)
  | 0, _ => none
  | fuel + 1, s =>
    match skipWs s with
    | [] => none
    | c :: rest =>
      if c = quoteChar then
        match parseStringBody fuel rest with
        | none => none
        | some (key, s2) =>
          match skipWs s2 with
          | c2 :: rest2 =>
            if c2 = ':' then
              match parseValue fuel rest2 with
              | none => none
              | some (v, s3) =>
                match skipWs s3 with
                | c3 :: rest3 =>
                  if c3 = ',' then
                    (parseMembers fuel rest3).map (fun p => ((key, v) :: p.1, p.2))
                  else if c3 = rbrace then some ([(key, v)], rest3)
                  else none
                | [] => none
            else none
          | [] => none
      else none

/-- Parse an array body, the opening bracket already consumed. -/
def parseArrBody : ℕ → List Char → Option (Json × List Char)
  | 0, _ => none
  | fuel + 1, s =>
    match skipWs s with
    | [] => none
    | c :: rest =>
      if c = rbrack then some (Json.arr [], rest)
      else
        (parseElems fuel (c :: rest)).map (fun p => (Json.arr p.1, p.2))

/-- Parse the elements of a non-empty array. -/
def parseElems : ℕ → List Char → Option (List Json × List Char)
  | 0, _ => none
  | fuel + 1, s =>
    match parseValue fuel s with
    | none => none
    | some (v, s2) =>
      match skipWs s2 with
      | c :: rest =>
        if c = ',' then
          (parseElems fuel rest).map (fun p => (v :: p.1, p.2))
        else if c = rbrack then some ([v], rest)
        else none
      | [] => none

end

/-- JSON.parse: one value, nothing but whitespace after it. The fuel is an
upper bound on parser steps, ample for any input of the given length. -/
def parseJson (s : List Char) : Option Json :=
  match parseValue (4 * s.length + 8) s with
  | some (j, rest) => if skipWs rest = [] then some j else none
  | none => none

example : parseJson (strL "123") = some (Json.num 123) := rfl

example : parseJson (strL " -4.5e1 ") = some (Json.num (-45)) := rfl

example : parseJson (strL "[true, null]")
    = some (Json.arr [Json.bool true, Json.null]) := rfl

example :
    parseJson [lbrace, quoteChar, 'a', quoteChar, ':', '1', rbrace]
      = some (Json.obj [(['a'], Json.num 1)]) := rfl

example : parseJson [lbrace, quoteChar, 'a', quoteChar, ':', '1', ',', rbrace]
      = none := rfl

example : parseJson (strL "tru") = none := rfl

/-! Section: Response normalization (src/lib/openai-analysis.ts lines 190-230)

The content-analysis normalizer: strip markdown code fences, trim, then — only
when the cleaned text is non-empty and does not end in a closing brace —
append the missing closing braces and strip trailing commas before a closing
brace; parse once; fall back to a fixed minimal fragment when the parse
throws. The same repair logic is reused for the platform response at lines
328-350. -/

/-- The pattern pieces of the global regex replace on line 196, which removes
markdown code fences: alternation of backtick-backtick-backtick-json with an
optional trailing newline, and an optional newline followed by three
backticks. -/
def fenceJsonNl : List Char := [backtick, backtick, backtick, 'j', 's', 'o', 'n', '\n']

def fenceJson : List Char := [backtick, backtick, backtick, 'j', 's', 'o', 'n']

def nlFence : List Char := ['\n', backtick, backtick, backtick]

def fence : List Char := [backtick, backtick, backtick]

/-- Global regex replace removing code fences: at each position try the
alternatives in the regex's order (greedy optional newline first), remove a
match and resume after it, otherwise move one character on. -/
def stripCodeFences : ℕ → List Char → List Char
  | 0, s => s
  | _ + 1, [] => []
  | fuel + 1, c :: rest =>
    match dropLit fenceJsonNl (c :: rest) with
    | some r => stripCodeFences fuel r
    | none =>
      match dropLit fenceJson (c :: rest) with
      | some r => stripCodeFences fuel r
      | none =>
        match dropLit nlFence (c :: rest) with
        | some r => stripCodeFences fuel r
        | none =>
          match dropLit fence (c :: rest) with
          | some r => stripCodeFences fuel r
          | none => c :: stripCodeFences fuel rest

/-- Whitespace for JS String.trim and the regex class backslash-s, restricted
to the characters provider payloads can contain. -/
def isTrimWs (c : Char) : Bool :=
  c = ' ' || c = '\t' || c = '\n' || c = '\r' || c = Char.ofNat 12 || c = Char.ofNat 11

/-- JS String.prototype.trim. -/
def jsTrim (s : List Char) : List Char :=
  ((s.dropWhile isTrimWs).reverse.dropWhile isTrimWs).reverse

/-- Global regex replace of a comma followed by optional whitespace and a
closing brace with just the whitespace and brace (line 212 / line 347). -/
def stripTrailingCommas : List Char → List Char
  | [] => []
  | c :: rest =>
    if c = ',' ∧ (rest.dropWhile isTrimWs).head? = some rbrace then
      stripTrailingCommas rest
    else c :: stripTrailingCommas rest

/-- Lines 196-197: remove markdown code fences and trim. -/
def cleanPayload (raw : List Char) : List Char :=
  jsTrim (stripCodeFences (raw.length + 1) raw)

/-- Lines 199-213: when the cleaned payload is non-empty and does not end
with a closing brace, append one closing brace per unmatched opening brace
(none when the count is not positive, as the JS for-loop then runs zero
times) and strip trailing commas before closing braces. -/
def repairTruncated (s : List Char) : List Char :=
  if s ≠ [] ∧ s.getLast? ≠ some rbrace then
    stripTrailingCommas (s ++ List.replicate (s.count lbrace - s.count rbrace) rbrace)
  else s

/-- The minimal valid fallback fragment of lines 221-229. -/
def defaultContentFragment : Json :=
  Json.obj
    [ (strL "contentType", Json.obj
        [ (strL "type", Json.str (strL "Document"))
        , (strL "confidence", Json.num (7 / 10)) ])
    , (strL "extractedText", Json.str (strL "Text extraction failed due to parsing error"))
    , (strL "visualElements", Json.obj
        [ (strL "objects", Json.arr [])
        , (strL "emotions", Json.arr [])
        , (strL "faces", Json.num 0)
        , (strL "textDensity", Json.num (1 / 2))
        , (strL "colorHarmony", Json.num (7 / 10))
        , (strL "dominantColors", Json.arr [])
        , (strL "visualStyle", Json.str (strL "document")) ])
    , (strL "strategicIntent", Json.obj
        [ (strL "primary", Json.str (strL "Information"))
        , (strL "secondary", Json.arr [Json.str (strL "Documentation")])
        , (strL "reasoning", Json.str (strL "Parsing error occurred")) ]) ]

/-- Lines 190-230 as one total function: clean, conditionally repair, parse
once, and substitute the default fragment when JSON.parse throws. The JS
try/catch guarantees no exception escapes; the embedding is total by
construction, matching that guarantee. -/
def normalizeContent (raw : List Char) : Json :=
  match parseJson (repairTruncated (cleanPayload raw)) with
  | some j => j
  | none => defaultContentFragment

/-- Modelled from the spec: the Response Normalizer as section 4.2 words it —
parse the payload; if the parse fails, count unmatched opening and closing
braces and append the missing closing braces, strip trailing commas before a
closing brace, then retry the parse once; if still invalid, fall back to the
minimal default fragment. (The code instead repairs before its single parse
attempt and only when the payload does not already end with a closing brace;
this definition exists to witness that divergence.) -/
def normalizeContentSpec (raw : List Char) : Json :=
  match parseJson raw with
  | some j => j
  | none =>
    match parseJson (stripTrailingCommas
        (raw ++ List.replicate (raw.count lbrace - raw.count rbrace) rbrace)) with
    | some j => j
    | none => defaultContentFragment

/-- The spec's own truncation example: a payload cut off mid-object is
repaired by the brace-appending path and parses. -/
example :
    normalizeContent
      (lbrace :: strL "\"a\":1,\"b\":" ++ [lbrace] ++ strL "\"c\":2")
      = Json.obj
          [ (['a'], Json.num 1)
          , (['b'], Json.obj [(['c'], Json.num 2)]) ] := rfl

/-! Section: The OpenAI analysis (src/lib/openai-analysis.ts)

The typed result interface ContentAnalysisResult, the video shortcut, the
parse-failure fallback scorer, the result assembly, and the wrapper that
turns quota errors into SUBSCRIPTION_EXPIRED. Strings are lists of
characters; fields that runtime JSON may omit are Options. The two provider
calls are inputs: Except values carrying the message content (possibly null)
or the thrown error. -/

/-- Access a field of a JSON object; any other shape yields undefined. -/
def jGet (j : Json) (k : String) : Option Json :=
  match j with
  | Json.obj kvs => jsGet kvs (strL k)
  | _ => none

/-- JS `x || d` on a JSON field expected to hold a number: absent, null,
false, zero and empty values are falsy and select the default. A truthy
non-number would flow through JS arithmetic as a coercion; provider schemas
make these fields numeric and the embedding treats such values as absent. -/
def jNumOr (x : Option Json) (d : ℚ) : ℚ :=
  match x with
  | some (Json.num q) => if q = 0 then d else q
  | _ => d

/-- JS `x || d` on a JSON field expected to hold a string. -/
def jStrOr (x : Option Json) (d : List Char) : List Char :=
  match x with
  | some (Json.str s) => if s = [] then d else s
  | _ => d

/-- JS `x || d` on a JSON field expected to hold an array of strings; an
array is truthy even when empty, so a present empty array is kept. -/
def jStrArrOr (x : Option Json) (d : List (List Char)) : List (List Char) :=
  match x with
  | some (Json.arr xs) =>
    xs.filterMap (fun e => match e with | Json.str s => some s | _ => none)
  | _ => d

/-- A provider-call failure as the call sites observe it: HTTP status and
error code when the provider supplies them, and the error message. -/
structure ApiError where
  status : Option ℕ
  code : Option (List Char)
  message : List Char
  deriving DecidableEq

/-- One per-platform recommendation record of ContentAnalysisResult. The
TypeScript interface declares every field, but values coming from parsed
provider JSON may omit any of them, so each field is optional here. -/
structure PlatformRec where
  score : Option ℚ
  optimizations : Option (List (List Char))
  reasoning : Option (List Char)
  deriving DecidableEq

structure ContentTypeInfo where
  type : List Char
  confidence : ℚ
  likelihood : List (List Char × ℚ)
  deriving DecidableEq

structure StrategicPos where
  primary : List Char
  secondary : List (List Char)
  reasoning : List Char
  deriving DecidableEq

structure VisualAnalysisInfo where
  objects : List (List Char)
  emotions : List (List Char)
  faces : ℚ
  textDensity : ℚ
  colorHarmony : ℚ
  extractedText : List Char
  dominantColors : List (List Char)
  visualStyle : List Char
  deriving DecidableEq

structure ContentAnalysisResult where
  contentType : ContentTypeInfo
  strategicPositioning : StrategicPos
  visualAnalysis : VisualAnalysisInfo
  platformRecommendations : List (List Char × PlatformRec)
  overallScore : ℚ
  deriving DecidableEq

/-- The uploaded file as the analysis reads it: name and MIME type. -/
structure UploadFile where
  name : List Char
  ftype : List Char
  deriving DecidableEq

/-- Line 192 / line 330: the message content of a chat completion, defaulted
to an empty JSON object when null or empty. -/
def responseTextOf (content : Option (List Char)) : List Char :=
  match content with
  | some c => if c = [] then [lbrace, rbrace] else c
  | none => [lbrace, rbrace]

/-- Lines 99-119: per-platform video score. -/
def videoScore (p : List Char) : ℚ :=
  if p = strL "tiktok" ∨ p = strL "instagram" then 90
  else if p = strL "facebook" ∨ p = strL "twitter" then 80
  else if p = strL "linkedin" then 65
  else if p = strL "snapchat" then 85
  else 75

/-- Lines 111: the recommended video length for a platform. -/
def videoLength (p : List Char) : List Char :=
  if p = strL "tiktok" then strL "15-60s"
  else if p = strL "instagram" then strL "15-90s"
  else strL "30-120s"

/-- Lines 74-121: the analysis returned for video files without any provider
call, built from file metadata alone. -/
def videoAnalysisResult (platforms : List (List Char)) : ContentAnalysisResult :=
  { contentType :=
      { type := strL "Video Content"
      , confidence := 4 / 5
      , likelihood :=
          [ (strL "Video Content", 4 / 5)
          , (strL "Social Post", 3 / 5)
          , (strL "Brand Story", 1 / 2) ] }
  , strategicPositioning :=
      { primary := strL "Engagement & Storytelling"
      , secondary := [strL "Brand Awareness", strL "Community Building"]
      , reasoning := strL "Video content typically performs well for engagement and storytelling across social platforms" }
  , visualAnalysis :=
      { objects := [strL "video content"]
      , emotions := [strL "engaging", strL "dynamic"]
      , faces := 0
      , textDensity := 1 / 5
      , colorHarmony := 7 / 10
      , extractedText := strL "Video content - text analysis not available"
      , dominantColors := [strL "dynamic"]
      , visualStyle := strL "video" }
  , platformRecommendations :=
      platforms.foldl
        (fun acc p =>
          upsert acc p
            { score := some (videoScore p)
            , optimizations := some
                [ strL "Optimize video length for " ++ p ++ strL " (" ++ videoLength p ++ [')']
                , strL "Add captions for accessibility and silent viewing"
                , strL "Include strong visual hook in first 3 seconds"
                , strL "Use trending audio/music if applicable for " ++ p ]
            , reasoning := some (strL "Video content generally performs well on " ++ p ++ strL ", especially with proper length optimization and engaging opening") })
        []
  , overallScore := 80 }

/-- Line 361: the lower-cased content type of the first-stage analysis, or
empty when absent. -/
def contentTypeLowerOf (contentAnalysis : Json) : List Char :=
  match (jGet contentAnalysis "contentType").bind (fun j => jGet j "type") with
  | some (Json.str s) => s.map Char.toLower
  | _ => []

/-- JS String.prototype.includes: substring containment. -/
def includesSub (sub : List Char) : List Char → Bool
  | [] => (dropLit sub []).isSome
  | c :: rest => (dropLit sub (c :: rest)).isSome || includesSub sub rest

/-- Lines 363-371: the static platform multiplier of the parse-failure
fallback scorer, keyed on substrings of the lower-cased content type. -/
def fallbackMultiplier (ctl : List Char) (p : List Char) : ℚ :=
  if p = strL "instagram" then
    if includesSub (strL "visual") ctl ∨ includesSub (strL "showcase") ctl then 11 / 10 else 9 / 10
  else if p = strL "linkedin" then
    if includesSub (strL "professional") ctl ∨ includesSub (strL "business") ctl then 6 / 5 else 7 / 10
  else if p = strL "tiktok" then
    if includesSub (strL "creative") ctl ∨ includesSub (strL "entertainment") ctl then 11 / 10 else 4 / 5
  else if p = strL "twitter" then
    if includesSub (strL "news") ctl ∨ includesSub (strL "announcement") ctl then 11 / 10 else 17 / 20
  else 1

/-- Line 356: the fallback base score, the first-stage confidence (default
0.6) times 100, rounded. -/
def fallbackBaseScore (contentAnalysis : Json) : ℚ :=
  jsRound (jNumOr ((jGet contentAnalysis "contentType").bind (fun j => jGet j "confidence")) (3 / 5) * 100)

/-- Lines 355-380: when the platform response fails to parse, build one
recommendation per requested platform from the base score and the static
multiplier, with fixed optimization tips. -/
def fallbackPlatformRecs (contentAnalysis : Json) (platforms : List (List Char)) :
    List (List Char × PlatformRec) :=
  platforms.foldl
    (fun acc p =>
      upsert acc p
        { score := some (jsRound (fallbackBaseScore contentAnalysis * fallbackMultiplier (contentTypeLowerOf contentAnalysis) p))
        , optimizations := some
            [ strL "Optimize content for " ++ p
            , strL "Follow " ++ p ++ strL " best practices" ]
        , reasoning := some (strL "Analysis based on content type: "
            ++ jStrOr ((jGet contentAnalysis "contentType").bind (fun j => jGet j "type")) (strL "Unknown")) })
    []

/-- Read one platform recommendation out of parsed provider JSON; fields the
JSON does not supply as the expected shape are absent. -/
def platformRecOfJson (j : Json) : PlatformRec :=
  { score := match jGet j "score" with | some (Json.num q) => some q | _ => none
  , optimizations := match jGet j "optimizations" with
      | some (Json.arr xs) => some (xs.filterMap (fun e => match e with | Json.str s => some s | _ => none))
      | _ => none
  , reasoning := match jGet j "reasoning" with | some (Json.str s) => some s | _ => none }

/-- The platformRecommendations map of a parsed platform payload (line 386 and
line 421 read it with a falsy-default to an empty object). -/
def platformRecsOfJson (pa : Json) : List (List Char × PlatformRec) :=
  match jGet pa "platformRecommendations" with
  | some (Json.obj kvs) => kvs.map (fun kv => (kv.1, platformRecOfJson kv.2))
  | _ => []

/-- Lines 328-381: normalize the platform response — same cleanup and repair
as the content response, with the fallback scorer substituted when the parse
throws. -/
def normalizePlatform (contentAnalysis : Json) (platforms : List (List Char))
    (raw : List Char) : List (List Char × PlatformRec) :=
  match parseJson (repairTruncated (cleanPayload raw)) with
  | some j => platformRecsOfJson j
  | none => fallbackPlatformRecs contentAnalysis platforms

/-- Lines 385-393: the overall score — the rounded mean of the per-platform
scores (a falsy score counting as 70), or 75 when there are none. -/
def overallScoreOf (platformRecs : List (List Char × PlatformRec)) : ℚ :=
  let scores := platformRecs.map (fun kv => jsOrQ kv.2.score 70)
  if 0 < scores.length then jsRound (scores.sum / scores.length) else 75

/-- Lines 396-423: assemble the typed ContentAnalysisResult from the parsed
first-stage analysis and the platform recommendations, defaulting every
field. -/
def buildResult (contentAnalysis : Json) (platformRecs : List (List Char × PlatformRec)) :
    ContentAnalysisResult :=
  let ct := jGet contentAnalysis "contentType"
  let typeStr := jStrOr (ct.bind (fun j => jGet j "type")) (strL "Social Post")
  let conf := jNumOr (ct.bind (fun j => jGet j "confidence")) (3 / 4)
  let rawType : Option (List Char) :=
    match ct.bind (fun j => jGet j "type") with
    | some (Json.str s) => some s
    | _ => none
  let si := jGet contentAnalysis "strategicIntent"
  let ve := jGet contentAnalysis "visualElements"
  { contentType :=
      { type := typeStr
      , confidence := conf
      , likelihood := fromEntries
          [ (typeStr, conf)
          , (strL "Ad Copy", if rawType = some (strL "Ad Copy") then 0 else 1 / 4)
          , (strL "Educational Content", if rawType = some (strL "Educational Content") then 0 else 3 / 20) ] }
  , strategicPositioning :=
      { primary := jStrOr (si.bind (fun j => jGet j "primary")) (strL "Brand Awareness")
      , secondary := jStrArrOr (si.bind (fun j => jGet j "secondary")) [strL "Engagement"]
      , reasoning := jStrOr (si.bind (fun j => jGet j "reasoning"))
          (jStrOr (ct.bind (fun j => jGet j "reasoning")) (strL "AI-powered content analysis")) }
  , visualAnalysis :=
      { objects := jStrArrOr (ve.bind (fun j => jGet j "objects")) []
      , emotions := jStrArrOr (ve.bind (fun j => jGet j "emotions")) []
      , faces := jNumOr (ve.bind (fun j => jGet j "faces")) 0
      , textDensity := jNumOr (ve.bind (fun j => jGet j "textDensity")) (3 / 10)
      , colorHarmony := jNumOr (ve.bind (fun j => jGet j "colorHarmony")) (4 / 5)
      , extractedText := jStrOr (jGet contentAnalysis "extractedText") []
      , dominantColors := jStrArrOr (ve.bind (fun j => jGet j "dominantColors")) []
      , visualStyle := jStrOr (ve.bind (fun j => jGet j "visualStyle")) (strL "modern") }
  , platformRecommendations := platformRecs
  , overallScore := overallScoreOf platformRecs }

/-- Lines 64-431, performOpenAIAnalysis: video files take the metadata path
with no provider call; image files issue the content call, normalize it,
issue the platform call, normalize it (with the fallback scorer on parse
failure), and assemble the result. A thrown provider error is re-thrown by
the outer catch (line 429). -/
def performOpenAIAnalysis (f : UploadFile) (platforms : List (List Char))
    (call1 call2 : Except ApiError (Option (List Char))) :
    Except ApiError ContentAnalysisResult :=
  if (strL "video/").isPrefixOf f.ftype then
    Except.ok (videoAnalysisResult platforms)
  else
    match call1 with
    | Except.error e => Except.error e
    | Except.ok content1 =>
      let contentAnalysis := normalizeContent (responseTextOf content1)
      match call2 with
      | Except.error e => Except.error e
      | Except.ok content2 =>
        let platformRecs := normalizePlatform contentAnalysis platforms (responseTextOf content2)
        Except.ok (buildResult contentAnalysis platformRecs)

/-- How many provider calls an invocation of performOpenAIAnalysis issues:
none for video, one when the first call throws, two otherwise. -/
def openAICallCount (f : UploadFile) (call1 : Except ApiError (Option (List Char))) : ℕ :=
  if (strL "video/").isPrefixOf f.ftype then 0
  else match call1 with
    | Except.error _ => 1
    | Except.ok _ => 2

/-- The error thrown for quota exhaustion at line 56. -/
def subscriptionExpiredError : ApiError :=
  { status := none, code := none, message := strL "SUBSCRIPTION_EXPIRED" }

/-- Lines 44-62, analyzeContentWithOpenAI: pass a success through; map a
failure with HTTP status 429 or code insufficient_quota to the
SUBSCRIPTION_EXPIRED error; re-throw every other failure unchanged — no
fallback substitution on this route. -/
def analyzeContentWithOpenAI (f : UploadFile) (platforms : List (List Char))
    (call1 call2 : Except ApiError (Option (List Char))) :
    Except ApiError ContentAnalysisResult :=
  match performOpenAIAnalysis f platforms call1 call2 with
  | Except.ok r => Except.ok r
  | Except.error e =>
    if e.status = some 429 ∨ e.code = some (strL "insufficient_quota") then
      Except.error subscriptionExpiredError
    else Except.error e

/-! Section: The report schema (src/types/index.ts) and the OpenAI API route
(src/unnamed/part_003 lines 74-295)

The route validates the session, the file and the platform list, runs
analyzeContentWithOpenAI, and transforms its result into the
PredictionResult list and the AssetAnalysis object the frontend consumes.
The two maps whose keys the claims speak about — platformFitAnalysis and
tailoredRecommendations — are modelled as entry lists in literal order. -/

/-- JS `x || d` on a string that is always present: only the empty string
selects the default. -/
def jsOrL (x : List Char) (d : List Char) : List Char := if x = [] then d else x

/-- JS `x || d` on a number that is always present: only zero selects the
default. -/
def jsOr0 (x : ℚ) (d : ℚ) : ℚ := if x = 0 then d else x

structure PredictionResult where
  platform : List Char
  successScore : ℚ
  polarisationScore : List Char
  strategicAngle : List Char
  recommendations : List (List Char)
  deriving DecidableEq

structure ContentIdentification where
  contentType : List Char
  confidence : ℚ
  context : List Char
  relevantCategories : List (List Char)
  deriving DecidableEq

structure StrategicPositioningOut where
  primaryStrategy : List Char
  secondaryStrategy : List Char
  strategyScore : ℚ
  positioning : List Char
  deriving DecidableEq

structure EmotionalAnalysisOut where
  primaryEmotion : List Char
  emotionalIntensity : ℚ
  isPolarizing : Bool
  polarizationReason : List Char
  emotionalTriggers : List (List Char)
  deriving DecidableEq

structure PerformanceScoring where
  engagementPotential : ℚ
  clarityOfMessage : ℚ
  viralityLikelihood : ℚ
  deriving DecidableEq

structure TailoredRec where
  prediction : List Char
  score : ℚ
  optimizationTips : List (List Char)
  deriving DecidableEq

structure VisualFeatures where
  faces : ℚ
  objects : List (List Char)
  emotions : List (List Char)
  textDensity : ℚ
  logoVisibility : ℚ
  colorHarmony : ℚ
  deriving DecidableEq

structure BrandSafety where
  nsfw : Bool
  violent : Bool
  sensitive : Bool
  score : ℚ
  deriving DecidableEq

structure PlatformFitInfo where
  aspectRatio : ℚ
  textInImageTolerance : ℚ
  toneFit : ℚ
  deriving DecidableEq

structure DesignConsistencyDetails where
  brandColors : Bool
  fontConsistency : Bool
  logoConsistency : Bool
  campaignTheme : Bool
  textReadability : ℚ
  spacingUniformity : ℚ
  qualityIssues : List (List Char)
  deriving DecidableEq

structure AspectRatioDetails where
  current : List Char
  isCorrect : Bool
  recommended : List (List Char)
  deriving DecidableEq

structure ResolutionDetails where
  width : ℚ
  height : ℚ
  isHighRes : Bool
  deriving DecidableEq

structure FileTypeDetails where
  current : List Char
  isAppropriate : Bool
  recommended : List Char
  deriving DecidableEq

structure FormatAndSizeDetails where
  aspectRatio : AspectRatioDetails
  resolution : ResolutionDetails
  fileType : FileTypeDetails
  deriving DecidableEq

structure ContentClarityDetails where
  messageClarity : ℚ
  visualHierarchy : ℚ
  dependsOnCaption : Bool
  deriving DecidableEq

structure TextAccuracyDetails where
  typosFree : Bool
  factChecked : Bool
  accurateDetails : Bool
  detectedText : List (List Char)
  potentialIssues : List (List Char)
  deriving DecidableEq

structure BrandPresenceDetails where
  logoPlacement : ℚ
  logoVisibility : ℚ
  socialHandleVisible : Bool
  websiteReadable : Bool
  brandElementsPresent : List (List Char)
  deriving DecidableEq

/-- One scored category of the brand/design evaluation. -/
structure ScoredCategory (δ : Type) where
  score : ℚ
  reasoning : List Char
  recommendations : List (List Char)
  details : δ
  deriving DecidableEq

structure BrandDesignEvaluation where
  designConsistency : ScoredCategory DesignConsistencyDetails
  formatAndSize : ScoredCategory FormatAndSizeDetails
  contentClarity : ScoredCategory ContentClarityDetails
  textAccuracy : ScoredCategory TextAccuracyDetails
  brandPresence : ScoredCategory BrandPresenceDetails
  deriving DecidableEq

structure AssetAnalysis where
  contentIdentification : ContentIdentification
  strategicPositioning : StrategicPositioningOut
  emotionalAnalysis : EmotionalAnalysisOut
  platformFitAnalysis : List (List Char × ℚ)
  performanceScoring : PerformanceScoring
  tailoredRecommendations : List (List Char × TailoredRec)
  visualFeatures : VisualFeatures
  brandSafety : BrandSafety
  platformFit : PlatformFitInfo
  brandDesignEvaluation : BrandDesignEvaluation
  deriving DecidableEq

/-- Lines 118-131: the fallback raw score when a platform has no
provider-supplied score (also reused at line 170). -/
def predictionFallbackScore (aiResult : ContentAnalysisResult) : ℚ :=
  jsRound (jsOr0 aiResult.overallScore 60 * (4 / 5))

/-- Lines 118-131: the raw per-platform score — the recommendation's score
unless falsy, the fallback otherwise. -/
def rawScoreFor (aiResult : ContentAnalysisResult) (platform : List Char) : ℚ :=
  match jsGet aiResult.platformRecommendations platform with
  | some r => jsOrQ r.score (predictionFallbackScore aiResult)
  | none => predictionFallbackScore aiResult

/-- Lines 118-131: the PredictionResult list of the OpenAI route, one entry
per requested platform, successScore clamped into 0..10 after converting the
raw score to a 0-10 scale. -/
def buildPredictions (aiResult : ContentAnalysisResult) (platforms : List (List Char)) :
    List PredictionResult :=
  platforms.map (fun platform =>
    { platform := platform
    , successScore := min 10 (max 0 (jsRound (rawScoreFor aiResult platform / 10)))
    , polarisationScore := strL "Low"
    , strategicAngle := jsOrL aiResult.strategicPositioning.primary (strL "Brand Awareness")
    , recommendations :=
        ((jsGet aiResult.platformRecommendations platform).bind (fun r => r.optimizations)).getD
          [ strL "Optimize content for " ++ platform ++ strL " audience"
          , strL "Consider " ++ platform ++ strL "-specific best practices" ] })

/-- Lines 155-160: one platformFitAnalysis value — the provider score for
the fixed platform if present (nullish coalescing, so a zero score is kept),
otherwise the overall score (default 60) times the platform weight. -/
def platformFitScore (aiResult : ContentAnalysisResult) (p : String) (m : ℚ) : ℚ :=
  (((jsGet aiResult.platformRecommendations (strL p)).bind (fun r => r.score)).getD
    (jsRound (jsOr0 aiResult.overallScore 60 * m)))

/-- Lines 167-177: one tailoredRecommendations entry. -/
def tailoredRecFor (aiResult : ContentAnalysisResult) (platform : List Char) : TailoredRec :=
  let score := rawScoreFor aiResult platform
  { prediction := strL "AI analysis shows "
      ++ (if score > 80 then strL "strong" else if score > 60 then strL "good" else strL "moderate")
      ++ strL " potential for " ++ platform
  , score := jsRound (score / 10)
  , optimizationTips :=
      ((jsGet aiResult.platformRecommendations platform).bind (fun r => r.optimizations)).getD
        [strL "Optimize for " ++ platform ++ strL " best practices"] }

/-- Lines 134-269: the AssetAnalysis object the OpenAI route returns,
assembled field for field from the analysis result with defaults. -/
def buildAnalysis (aiResult : ContentAnalysisResult) (platforms : List (List Char))
    (f : UploadFile) : AssetAnalysis :=
  let ov := aiResult.overallScore
  let td := aiResult.visualAnalysis.textDensity
  let ch := aiResult.visualAnalysis.colorHarmony
  { contentIdentification :=
      { contentType := jsOrL aiResult.contentType.type (strL "Social Post")
      , confidence := jsOr0 aiResult.contentType.confidence (3 / 4)
      , context := strL "AI-powered marketing asset analysis"
      , relevantCategories := aiResult.contentType.likelihood.map Prod.fst }
  , strategicPositioning :=
      { primaryStrategy := jsOrL aiResult.strategicPositioning.primary (strL "Brand Awareness")
      , secondaryStrategy := jsOrL (aiResult.strategicPositioning.secondary.headD []) (strL "Engagement")
      , strategyScore := jsRound (jsOr0 aiResult.contentType.confidence (3 / 4) * 100)
      , positioning := jsOrL aiResult.strategicPositioning.reasoning (strL "AI analysis suggests strong positioning") }
  , emotionalAnalysis :=
      { primaryEmotion := jsOrL (aiResult.visualAnalysis.emotions.headD []) (strL "professional")
      , emotionalIntensity := 80
      , isPolarizing := false
      , polarizationReason := strL "Content appears to have broad appeal"
      , emotionalTriggers := aiResult.visualAnalysis.emotions }
  , platformFitAnalysis :=
      [ (strL "instagram", platformFitScore aiResult "instagram" (9 / 10))
      , (strL "tiktok", platformFitScore aiResult "tiktok" (17 / 20))
      , (strL "linkedin", platformFitScore aiResult "linkedin" (4 / 5))
      , (strL "twitter", platformFitScore aiResult "twitter" (17 / 20))
      , (strL "facebook", platformFitScore aiResult "facebook" (9 / 10))
      , (strL "snapchat", platformFitScore aiResult "snapchat" (3 / 4)) ]
  , performanceScoring :=
      { engagementPotential := jsOr0 ov 75
      , clarityOfMessage := 85
      , viralityLikelihood := 70 }
  , tailoredRecommendations :=
      fromEntries (platforms.map (fun platform => (platform, tailoredRecFor aiResult platform)))
  , visualFeatures :=
      { faces := jsOr0 aiResult.visualAnalysis.faces 0
      , objects := aiResult.visualAnalysis.objects
      , emotions := aiResult.visualAnalysis.emotions
      , textDensity := jsOr0 td (3 / 10)
      , logoVisibility := 4 / 5
      , colorHarmony := jsOr0 ch (4 / 5) }
  , brandSafety :=
      { nsfw := false
      , violent := false
      , sensitive := false
      , score := min 95 (jsRound (jsOr0 ov 50 * (19 / 20))) }
  , platformFit :=
      { aspectRatio := 4 / 5
      , textInImageTolerance := if td < 1 / 2 then 4 / 5 else 3 / 5
      , toneFit := 4 / 5 }
  , brandDesignEvaluation :=
      { designConsistency :=
          { score := min 10 (max 0 (jsRound (jsOr0 ov 75 * (9 / 10) / 10)))
          , reasoning := strL "AI analysis shows good alignment with brand design principles"
          , recommendations := [strL "Ensure consistent branding", strL "Optimize visual hierarchy"]
          , details :=
              { brandColors := true
              , fontConsistency := true
              , logoConsistency := true
              , campaignTheme := true
              , textReadability := min 1 (jsOr0 td (3 / 10) + 2 / 5)
              , spacingUniformity := jsOr0 ch (4 / 5)
              , qualityIssues := [] } }
      , formatAndSize :=
          { score := min 10 (max 0 (jsRound (jsOr0 ov 75 * (17 / 20) / 10)))
          , reasoning := strL "Format is suitable for selected platforms"
          , recommendations := [strL "Optimize for platform-specific dimensions"]
          , details :=
              { aspectRatio :=
                  { current := strL "1:1"
                  , isCorrect := true
                  , recommended := [strL "1:1", strL "4:5", strL "16:9"] }
              , resolution := { width := 1080, height := 1080, isHighRes := true }
              , fileType :=
                  { current := jsOrL f.ftype (strL "image/jpeg")
                  , isAppropriate := true
                  , recommended := strL "JPEG" } } }
      , contentClarity :=
          { score := min 10 (max 0 (jsRound ((1 - jsOr0 td (1 / 2)) * 100 / 10)))
          , reasoning := strL "Content clarity based on text analysis"
          , recommendations := [strL "Maintain consistent messaging"]
          , details :=
              { messageClarity := 17 / 20
              , visualHierarchy := jsOr0 ch (4 / 5)
              , dependsOnCaption := jsOr0 td (3 / 10) < 1 / 5 } }
      , textAccuracy :=
          { score := min 10 (max 0 (jsRound (jsOr0 ov 75 * (19 / 20) / 10)))
          , reasoning := strL "Text accuracy based on AI analysis"
          , recommendations := [strL "Proofread for accuracy"]
          , details :=
              { typosFree := true
              , factChecked := true
              , accurateDetails := true
              , detectedText :=
                  if aiResult.visualAnalysis.extractedText ≠ [] then
                    [aiResult.visualAnalysis.extractedText]
                  else []
              , potentialIssues := [] } }
      , brandPresence :=
          { score := min 10 (max 0 (jsRound (jsOr0 ov 75 * (4 / 5) / 10)))
          , reasoning := strL "Brand presence based on visual analysis"
          , recommendations := [strL "Ensure brand visibility"]
          , details :=
              { logoPlacement := 4 / 5
              , logoVisibility := 4 / 5
              , socialHandleVisible := true
              , websiteReadable := true
              , brandElementsPresent := [strL "logo", strL "brand colors"] } } } }

/-- A response of the OpenAI prediction route. -/
inductive RouteResponse where
  | unauthorized : RouteResponse
  | badRequest (msg : List Char) : RouteResponse
  | serverError (msg : List Char) : RouteResponse
  | okResult (predictions : List PredictionResult) (analysis : AssetAnalysis)
      (fileName ftype : List Char) : RouteResponse
  deriving DecidableEq

/-- Lines 74-295, the POST handler: session check (a missing or empty e-mail
is unauthorized), file check, platform-list check (null, non-array — both
modelled as none — or empty is rejected with status 400 before any provider
call), then the analysis and the report assembly; a thrown analysis error
becomes the 500 response. The second component counts the provider calls the
invocation issued. -/
def handlePredictPost (sessionEmail : Option (List Char)) (file : Option UploadFile)
    (platforms : Option (List (List Char)))
    (call1 call2 : Except ApiError (Option (List Char))) : RouteResponse × ℕ :=
  match sessionEmail with
  | none => (RouteResponse.unauthorized, 0)
  | some email =>
    if email = [] then (RouteResponse.unauthorized, 0)
    else
      match file with
      | none => (RouteResponse.badRequest (strL "No file provided"), 0)
      | some f =>
        match platforms with
        | none => (RouteResponse.badRequest (strL "No platforms selected"), 0)
        | some ps =>
          if ps.isEmpty then (RouteResponse.badRequest (strL "No platforms selected"), 0)
          else
            match analyzeContentWithOpenAI f ps call1 call2 with
            | Except.error e =>
              (RouteResponse.serverError (strL "AI analysis failed: " ++ e.message),
               openAICallCount f call1)
            | Except.ok aiResult =>
              (RouteResponse.okResult (buildPredictions aiResult ps)
                (buildAnalysis aiResult ps f) f.name f.ftype,
               openAICallCount f call1)

/-! Section: The classifier-ensemble service (src/lib/model-service.ts)

ModelService.analyzAsset posts the asset to the Python model service and, on
any failure whatsoever, substitutes getMockPrediction — a heavily randomized
mock. Math.random() is modelled by an explicit stream: every call site
consumes one position, so two runs differ exactly when their stream draws
differ. The randomized comparator sort of line 144 yields an
implementation-defined permutation; it is modelled as a rotation selected by
one draw, a deterministic function of the stream like any engine's sort is
of its comparator results. -/

/-- JS Math.floor into the rationals. -/
def jsFloor (x : ℚ) : ℚ := (⌊x⌋ : ℤ)

/-- A JS array index produced by Math.floor of a scaled random draw. -/
def floorIdx (x : ℚ) : ℕ := (⌊x⌋).toNat

/-- An apostrophe, for prose strings that contain one. -/
def apos : Char := Char.ofNat 39

/-- The stream of Math.random() outcomes, with the position of the next
draw. Stream values are the interval 0 inclusive to 1 exclusive, as
Math.random guarantees. -/
structure Rng where
  stream : ℕ → ℚ
  idx : ℕ

/-- Consume one Math.random() draw. -/
def Rng.next (g : Rng) : ℚ × Rng := (g.stream g.idx, ⟨g.stream, g.idx + 1⟩)

structure ContentTypeEntry where
  type : List Char
  description : List Char
  traits : List (List Char)
  deriving DecidableEq

/-- Lines 37-68: the six mock content types. -/
def mockContentTypes : List ContentTypeEntry :=
  [ { type := strL "Meme"
    , description := strL "Humorous image with text overlay following internet culture formats"
    , traits := [strL "humor", strL "relatability", strL "visual-text-combo"] }
  , { type := strL "Caption"
    , description := strL "Short supporting text designed to accompany visual content"
    , traits := [strL "concise", strL "descriptive", strL "engagement-focused"] }
  , { type := strL "Ad Copy"
    , description := strL "Promotional content with clear call-to-action and value proposition"
    , traits := [strL "persuasive", strL "benefit-driven", strL "action-oriented"] }
  , { type := strL "Long-form Blog"
    , description := strL "In-depth written content providing comprehensive information or analysis"
    , traits := [strL "educational", strL "detailed", strL "authority-building"] }
  , { type := strL "Professional Post"
    , description := strL "Business-focused content showcasing expertise or industry insights"
    , traits := [strL "credible", strL "industry-specific", strL "networking-oriented"] }
  , { type := strL "Personal Story"
    , description := strL "Authentic narrative sharing personal experiences or journeys"
    , traits := [strL "authentic", strL "emotional", strL "storytelling"] } ]

/-- Lines 73-114: the audience-reaction prediction per platform and content
type. Every platform of the table covers every mock content type. -/
def audienceReaction (p t : List Char) : Option (List Char) :=
  if p = strL "instagram" then
    if t = strL "Meme" then some (strL "High engagement through saves and shares, especially if trending format. Stories will boost reach.")
    else if t = strL "Caption" then some (strL "Moderate engagement if paired with quality visuals. Hashtag strategy crucial for discovery.")
    else if t = strL "Ad Copy" then some (strL "Lower organic reach due to algorithm. Needs influencer aesthetic to perform well.")
    else if t = strL "Professional Post" then some (strL "Limited reach unless highly visual. Better suited for LinkedIn crossposting.")
    else if t = strL "Personal Story" then some (strL "High emotional engagement, strong story potential, good for brand humanization.")
    else if t = strL "Long-form Blog" then some (strL "Poor fit - users prefer quick consumption. Consider carousel format instead.")
    else none
  else if p = strL "tiktok" then
    if t = strL "Meme" then some (strL "Viral potential if adapted to video format with trending audio. Text overlay essential.")
    else if t = strL "Caption" then some (strL "Not applicable - TikTok requires video content with dynamic elements.")
    else if t = strL "Ad Copy" then some (strL "Must feel native, not salesy. User-generated content style performs 3x better.")
    else if t = strL "Professional Post" then some (strL "Low engagement unless educational or behind-the-scenes content.")
    else if t = strL "Personal Story" then some (strL "Strong performance if authentic and relatable. Vulnerable storytelling trending.")
    else if t = strL "Long-form Blog" then some (strL "Must be broken into digestible video segments with hook in first 3 seconds.")
    else none
  else if p = strL "linkedin" then
    if t = strL "Meme" then some (strL "Poor reception unless business-relevant. Professional audience expects value.")
    else if t = strL "Caption" then some (strL "Ineffective standalone. Needs substantial professional context.")
    else if t = strL "Ad Copy" then some (strL "Moderate success if B2B focused. Soft-sell approach preferred over direct sales.")
    else if t = strL "Professional Post" then some (strL "High engagement potential. Industry insights and thought leadership perform well.")
    else if t = strL "Personal Story" then some (strL "Strong if tied to professional growth or business lessons.")
    else if t = strL "Long-form Blog" then some (strL "Excellent fit. LinkedIn users consume longer content during business hours.")
    else none
  else if p = strL "twitter" then
    if t = strL "Meme" then some (strL "High viral potential, especially with current events tie-ins. Retweet-friendly format.")
    else if t = strL "Caption" then some (strL "Works well if under 280 characters with strong hook in first line.")
    else if t = strL "Ad Copy" then some (strL "Challenging due to character limit. Thread format may be necessary.")
    else if t = strL "Professional Post" then some (strL "Good for establishing thought leadership. Quote tweets drive engagement.")
    else if t = strL "Personal Story" then some (strL "Effective in thread format. Vulnerability and authenticity resonate.")
    else if t = strL "Long-form Blog" then some (strL "Requires thread breakdown. Key insights must fit tweet format.")
    else none
  else if p = strL "facebook" then
    if t = strL "Meme" then some (strL "Good engagement in groups and pages. Sharing behavior drives organic reach.")
    else if t = strL "Caption" then some (strL "Solid performance when paired with relevant visuals and community tags.")
    else if t = strL "Ad Copy" then some (strL "Strong advertising platform. Detailed targeting options available.")
    else if t = strL "Professional Post" then some (strL "Mixed results - depends on audience age and industry.")
    else if t = strL "Personal Story" then some (strL "High engagement, especially in groups. Comments drive algorithm boost.")
    else if t = strL "Long-form Blog" then some (strL "Decent reach if engaging. Facebook users willing to read longer content.")
    else none
  else none

/-- The five platforms of the audienceReactions object, in key order. -/
def audienceReactionPlatforms : List (List Char) :=
  [strL "instagram", strL "tiktok", strL "linkedin", strL "twitter", strL "facebook"]

/-- Lines 117-123: the static content-type versus platform compatibility
scores. -/
def mockPlatformScores (p t : List Char) : Option ℚ :=
  if p = strL "instagram" then
    if t = strL "Meme" then some 85 else if t = strL "Caption" then some 70
    else if t = strL "Ad Copy" then some 45 else if t = strL "Professional Post" then some 35
    else if t = strL "Personal Story" then some 80 else if t = strL "Long-form Blog" then some 25
    else none
  else if p = strL "tiktok" then
    if t = strL "Meme" then some 90 else if t = strL "Caption" then some 20
    else if t = strL "Ad Copy" then some 55 else if t = strL "Professional Post" then some 40
    else if t = strL "Personal Story" then some 85 else if t = strL "Long-form Blog" then some 30
    else none
  else if p = strL "linkedin" then
    if t = strL "Meme" then some 25 else if t = strL "Caption" then some 30
    else if t = strL "Ad Copy" then some 60 else if t = strL "Professional Post" then some 95
    else if t = strL "Personal Story" then some 75 else if t = strL "Long-form Blog" then some 90
    else none
  else if p = strL "twitter" then
    if t = strL "Meme" then some 88 else if t = strL "Caption" then some 75
    else if t = strL "Ad Copy" then some 50 else if t = strL "Professional Post" then some 80
    else if t = strL "Personal Story" then some 85 else if t = strL "Long-form Blog" then some 65
    else none
  else if p = strL "facebook" then
    if t = strL "Meme" then some 70 else if t = strL "Caption" then some 65
    else if t = strL "Ad Copy" then some 75 else if t = strL "Professional Post" then some 55
    else if t = strL "Personal Story" then some 80 else if t = strL "Long-form Blog" then some 70
    else none
  else none

/-- Lines 130-135: the four polarization reasons. -/
def polarizationReasons : List (List Char) :=
  [ strL "This meme may polarize due to sensitive humor that could offend certain demographic groups"
  , strL "Content addresses politically sensitive topics that divide audiences along ideological lines"
  , strL "Uses controversial stance without acknowledging alternative perspectives"
  , strL "Contains imagery or references that could be interpreted as discriminatory" ]

/-- Line 143: the strategy tag pool. -/
def allStrategyTags : List (List Char) :=
  [ strL "humor", strL "storytelling", strL "relatability", strL "controversy"
  , strL "FOMO", strL "authority", strL "urgency", strL "aspirational"
  , strL "community-driven", strL "educational", strL "inspirational"
  , strL "trust-building", strL "curiosity-driven", strL "social-proof" ]

/-- Line 147: the emotion pool. -/
def mockEmotions : List (List Char) :=
  [ strL "curiosity", strL "amusement", strL "inspiration", strL "trust"
  , strL "surprise", strL "empathy", strL "laughter", strL "anger"
  , strL "pride", strL "excitement", strL "anticipation", strL "joy" ]

/-- Line 144: the randomized comparator sort, modelled as a stream-selected
rotation (see the section comment). -/
def jsRandomSort (r : ℚ) (l : List (List Char)) : List (List Char) :=
  let k := floorIdx (r * l.length)
  l.drop k ++ l.take k

/-- Lines 409-417: the fallback recommendations appended until there are at
least three. -/
def mockFallbackRecs : List (List Char) :=
  [ strL "Optimize posting time based on when your audience is most active"
  , strL "Cross-promote to other platforms with platform-specific adaptations"
  , strL "Create follow-up content to extend the conversation"
  , strL "Monitor comments closely for engagement opportunities" ]

/-- Lines 408-418: the while-loop appending unused fallback recommendations
while fewer than three are present, stopping when none is unused. -/
def padRecommendations : ℕ → List (List Char) → List (List Char)
  | 0, recs => recs
  | fuel + 1, recs =>
    if recs.length < 3 then
      match mockFallbackRecs.find? (fun r => ! recs.any (fun x => x = r)) with
      | some r => padRecommendations fuel (recs ++ [r])
      | none => recs
    else recs

/-- Capitalize as line 429 does: upper-case the first character. -/
def capitalize : List Char → List Char
  | [] => []
  | c :: rest => Char.toUpper c :: rest

/-- Lines 328-421: the per-platform tailored recommendations of the mock
predictions: platform- and content-specific pushes, two general checks, the
fallback padding, and the cap at four. -/
def getTailoredRecommendations (isPolarizing : Bool) (platform ctype : List Char)
    (strategies : List (List Char)) (emotion : List Char) : List (List Char) :=
  let pl := platform.map Char.toLower
  let base : List (List Char) :=
    if pl = strL "instagram" then
      (if ctype = strL "Meme" then
        [ strL "Use Instagram" ++ [apos] ++ strL "s carousel format to create a meme series for higher engagement"
        , strL "Add branded watermark in corner to prevent reposting without credit" ]
      else if ctype = strL "Story/Personal Update" then
        [ strL "Break story into 3-4 slides with cliffhanger transitions between each"
        , strL "Use location tags and relevant hashtags in first comment for discoverability" ]
      else if ctype = strL "Educational/Informational" then
        [ strL "Create infographic-style layouts with digestible information chunks"
        , strL "Include " ++ [apos] ++ strL "Save this post" ++ [apos] ++ strL " call-to-action for bookmark engagement" ]
      else [])
      ++ (if strategies.any (fun s => s = strL "aspirational") then
        [strL "Use aspirational lifestyle imagery in background to enhance appeal"] else [])
    else if pl = strL "tiktok" then
      (if ctype = strL "Entertainment" then
        [ strL "Hook viewers in first 3 seconds with unexpected visual or sound"
        , strL "Use trending audio with your content for algorithm boost" ]
      else if ctype = strL "Educational/Informational" then
        [ strL "Structure as " ++ [apos] ++ strL "things you didn" ++ [apos] ++ strL "t know" ++ [apos]
            ++ strL " or " ++ [apos] ++ strL "fact vs fiction" ++ [apos] ++ strL " format"
        , strL "Add text overlays for key points to accommodate sound-off viewing" ]
      else [])
      ++ (if emotion = strL "surprise" then
        [strL "Lead with the most surprising element to maximize retention"] else [])
      ++ (if strategies.any (fun s => s = strL "FOMO") then
        [ strL "Add urgency with phrases like " ++ [apos] ++ strL "before it" ++ [apos]
            ++ strL "s too late" ++ [apos] ++ strL " or countdown elements" ] else [])
    else if pl = strL "linkedin" then
      (if ctype = strL "Opinion/Thought-leadership" then
        [ strL "Start with contrarian statement then provide supporting evidence"
        , strL "Include industry-specific data points to establish credibility" ]
      else if ctype = strL "Meme" then
        [ strL "Reframe meme as professional analogy or business lesson"
        , strL "Add serious commentary explaining business relevance" ]
      else [])
      ++ (if strategies.any (fun s => s = strL "authority") then
        [strL "Reference your specific industry experience or credentials"] else [])
    else if pl = strL "twitter" then
      (if ctype = strL "Opinion/Thought-leadership" then
        [ strL "Create tweetstorm with numbered thread for complex ideas"
        , strL "End with question to encourage quote tweets and replies" ]
      else if ctype = strL "Meme" then
        [strL "Quote tweet your own image with additional context or punchline"]
      else [])
      ++ (if isPolarizing then
        [strL "Prepare follow-up tweets addressing potential counterarguments"] else [])
    else if pl = strL "youtube" then
      (if ctype = strL "Educational/Informational" then
        [ strL "Create thumbnail with bold text highlighting main benefit"
        , strL "Structure with clear chapters for better retention and searchability" ]
      else [])
      ++ (if strategies.any (fun s => s = strL "storytelling") then
        [strL "Use narrative arc with setup, conflict, and resolution"] else [])
    else []
  let withAnnounce :=
    if ctype = strL "Announcement" ∧ base.length < 3 then
      base ++ [strL "Include clear next steps or call-to-action for audience"]
    else base
  let withAdCopy :=
    if ctype = strL "Ad Copy" ∧ withAnnounce.length < 3 then
      withAnnounce ++ [strL "A/B test different value propositions in the headline"]
    else withAnnounce
  (padRecommendations 4 withAdCopy).take 4

/-- JS Array.prototype.join with a separator. -/
def joinSep (sep : List Char) : List (List Char) → List Char
  | [] => []
  | [x] => x
  | x :: xs => x ++ sep ++ joinSep sep xs

/-- The value ModelService.analyzAsset resolves with: the analysis and the
per-platform predictions. -/
structure MockResult where
  analysis : AssetAnalysis
  predictions : List PredictionResult
  deriving DecidableEq

/-- Lines 35-435, getMockPrediction: the fully randomized mock analysis and
predictions, with every Math.random() call drawing from the stream in source
order. -/
def getMockPrediction (platforms : List (List Char)) (g0 : Rng) : MockResult :=
  let (rContent, g1) := g0.next
  let selectedContent := mockContentTypes.getD (floorIdx (rContent * 6))
    { type := [], description := [], traits := [] }
  let (rPolar, g2) := g1.next
  let isPolarizing := rPolar > 17 / 20
  let (polarReason, g3) :=
    if isPolarizing then
      let (rReason, g3) := g2.next
      (polarizationReasons.getD (floorIdx (rReason * 4)) [], g3)
    else
      (strL "Content maintains neutral tone and focuses on universally acceptable topics without controversial elements", g2)
  let (rSort, g4) := g3.next
  let (rCount, g5) := g4.next
  let selectedStrategies :=
    (jsRandomSort rSort allStrategyTags).take (min 5 (3 + floorIdx (rCount * 3)))
  let (rEmo1, g6) := g5.next
  let primaryEmotion := mockEmotions.getD (floorIdx (rEmo1 * 12)) []
  let (rEmo2, g7) := g6.next
  let secondaryEmotion :=
    (mockEmotions.filter (fun e => e ≠ primaryEmotion)).getD
      (floorIdx (rEmo2 * (mockEmotions.length - 1))) []
  let (rEng, g8) := g7.next
  let engagementPotential := jsFloor (60 + rEng * 40)
  let (rClar, g9) := g8.next
  let clarityOfMessage := jsFloor (70 + rClar * 30)
  let (rViral, g10) := g9.next
  let viralityLikelihood :=
    jsFloor (if isPolarizing then 70 + rViral * 30 else 40 + rViral * 40)
  let (rConf, g11) := g10.next
  let (rStratScore, g12) := g11.next
  let (rIntensity, g13) := g12.next
  let emotionalIntensity := 3 / 5 + rIntensity * (2 / 5)
  let tableScore := fun (p : List Char) =>
    jsOrQ (mockPlatformScores p selectedContent.type) 50
  let (rIg, g14) := g13.next
  let (rTk, g15) := g14.next
  let (rLi, g16) := g15.next
  let (rTw, g17) := g16.next
  let (rYt, g18) := g17.next
  let (rFb, g19) := g18.next
  let (rSc, g20) := g19.next
  let jitter := fun (r : ℚ) => jsFloor (r * 10) - 5
  let platformFitAnalysis : List (List Char × ℚ) :=
    [ (strL "instagram", tableScore (strL "instagram") + jitter rIg)
    , (strL "tiktok", tableScore (strL "tiktok") + jitter rTk)
    , (strL "linkedin", tableScore (strL "linkedin") + jitter rLi)
    , (strL "twitter", tableScore (strL "twitter") + jitter rTw)
    , (strL "youtube", tableScore (strL "facebook") + jitter rYt)
    , (strL "facebook", tableScore (strL "facebook") + jitter rFb)
    , (strL "snapchat", jsFloor (40 + rSc * 40)) ]
  let (rFaces, g21) := g20.next
  let (rTd, g22) := g21.next
  let (rLogo, g23) := g22.next
  let (rCh, g24) := g23.next
  let (rSafety, g25) := g24.next
  let (rAspect, g26) := g25.next
  let (rTol, g27) := g26.next
  let (rTone, g28) := g27.next
  let (rDesign, g29) := g28.next
  let (rFormat, g30) := g29.next
  let (rClarity, g31) := g30.next
  let (rText, g32) := g31.next
  let (rBrand, _g33) := g32.next
  let mockAnalysis : AssetAnalysis :=
    { contentIdentification :=
        { contentType := selectedContent.type
        , confidence := 22 / 25 + rConf * (3 / 25)
        , context := selectedContent.description
        , relevantCategories :=
            ((mockContentTypes.filter (fun t => t.type ≠ selectedContent.type)).take 2).map
              (fun t => t.type) }
    , strategicPositioning :=
        { primaryStrategy := selectedStrategies.getD 0 []
        , secondaryStrategy := selectedStrategies.getD 1 []
        , strategyScore := 3 / 4 + rStratScore * (1 / 4)
        , positioning := strL "Primary strategy: " ++ selectedStrategies.getD 0 []
            ++ strL ". Supporting strategies: "
            ++ joinSep (strL ", ") (selectedStrategies.drop 1) ++ strL "." }
    , emotionalAnalysis :=
        { primaryEmotion := primaryEmotion
        , emotionalIntensity := emotionalIntensity
        , isPolarizing := isPolarizing
        , polarizationReason := polarReason
        , emotionalTriggers := ([primaryEmotion, secondaryEmotion].filter (fun e => e ≠ [])) }
    , platformFitAnalysis := platformFitAnalysis
    , performanceScoring :=
        { engagementPotential := engagementPotential
        , clarityOfMessage := clarityOfMessage
        , viralityLikelihood := viralityLikelihood }
    , tailoredRecommendations :=
        fromEntries (audienceReactionPlatforms.map (fun platform =>
          (platform,
            { prediction := (audienceReaction platform selectedContent.type).getD
                (strL "Content may require adaptation for this platform.")
            , score := jsOrQ (mockPlatformScores platform selectedContent.type) 0
            , optimizationTips :=
                [ strL "For " ++ platform ++ strL ": "
                    ++ jsOrL (((audienceReaction platform selectedContent.type).getD []).takeWhile
                        (fun c => c ≠ '.'))
                      (strL "Consider platform-specific adaptations")
                , strL "Timing: Post during peak hours for " ++ platform ++ strL " audience engagement"
                , strL "Format: " ++
                    (if platform = strL "tiktok" then strL "Vertical video format preferred"
                     else if platform = strL "linkedin" then strL "Professional tone required"
                     else strL "Visual elements should be platform-optimized") ] })))
    , visualFeatures :=
        { faces := jsFloor (rFaces * 5)
        , objects := [strL "person", strL "text", strL "logo"]
        , emotions := [strL "happy", strL "confident"]
        , textDensity := rTd * (3 / 10)
        , logoVisibility := rLogo
        , colorHarmony := 7 / 10 + rCh * (3 / 10) }
    , brandSafety :=
        { nsfw := false
        , violent := false
        , sensitive := false
        , score := 9 / 10 + rSafety * (1 / 10) }
    , platformFit :=
        { aspectRatio := rAspect
        , textInImageTolerance := rTol
        , toneFit := 3 / 5 + rTone * (2 / 5) }
    , brandDesignEvaluation :=
        { designConsistency :=
            { score := 7 + jsFloor (rDesign * 3)
            , reasoning := strL "The asset maintains good visual consistency with brand guidelines. Colors and typography align well with established brand identity."
            , recommendations :=
                [ strL "Consider using the primary brand color more prominently"
                , strL "Ensure consistent spacing around logo elements" ]
            , details :=
                { brandColors := true
                , fontConsistency := true
                , logoConsistency := true
                , campaignTheme := true
                , textReadability := 17 / 20
                , spacingUniformity := 39 / 50
                , qualityIssues := [] } }
        , formatAndSize :=
            { score := 8 + jsFloor (rFormat * 2)
            , reasoning := strL "Image format and dimensions are appropriate for selected platforms with good resolution quality."
            , recommendations :=
                [strL "Consider creating platform-specific variations for optimal performance"]
            , details :=
                { aspectRatio :=
                    { current := strL "16:9"
                    , isCorrect := true
                    , recommended := [strL "16:9", strL "1:1", strL "9:16"] }
                , resolution := { width := 1920, height := 1080, isHighRes := true }
                , fileType :=
                    { current := strL "JPEG"
                    , isAppropriate := true
                    , recommended := strL "JPEG" } } }
        , contentClarity :=
            { score := 6 + jsFloor (rClarity * 3)
            , reasoning := strL "Content message is clear but could benefit from improved visual hierarchy and contrast."
            , recommendations :=
                [ strL "Increase contrast between text and background"
                , strL "Consider larger font sizes for key messages" ]
            , details :=
                { messageClarity := 3 / 4
                , visualHierarchy := 17 / 25
                , dependsOnCaption := false } }
        , textAccuracy :=
            { score := 8 + jsFloor (rText * 2)
            , reasoning := strL "Text quality is high with good typography choices and readability."
            , recommendations := [strL "Verify spell-check on all text elements"]
            , details :=
                { typosFree := true
                , factChecked := true
                , accurateDetails := true
                , detectedText := [strL "Sample text", strL "Call to action"]
                , potentialIssues := [] } }
        , brandPresence :=
            { score := 7 + jsFloor (rBrand * 2)
            , reasoning := strL "Brand presence is solid with visible logo and consistent styling, but could be more prominent."
            , recommendations :=
                [ strL "Consider increasing logo size for better brand recognition"
                , strL "Add brand tagline or key brand elements" ]
            , details :=
                { logoPlacement := 4 / 5
                , logoVisibility := 3 / 4
                , socialHandleVisible := true
                , websiteReadable := true
                , brandElementsPresent := [strL "Logo", strL "Brand colors"] } } } }
  let predictions : List PredictionResult :=
    platforms.map (fun platform =>
      let platformScore := jsOrQ (jsGet mockAnalysis.platformFitAnalysis (platform.map Char.toLower)) 70
      let successScore := jsFloor ((platformScore + engagementPotential) / 20)
      { platform := platform
      , successScore := max 1 (min 10 successScore)
      , polarisationScore :=
          if isPolarizing then
            (if emotionalIntensity > 4 / 5 then strL "High" else strL "Medium")
          else strL "Low"
      , strategicAngle := capitalize (selectedStrategies.getD 0 [])
          ++ strL "-focused " ++ selectedContent.type
      , recommendations := getTailoredRecommendations isPolarizing platform
          selectedContent.type selectedStrategies primaryEmotion })
  { analysis := mockAnalysis, predictions := predictions }

/-- Lines 7-33, ModelService.analyzAsset: post the asset to the Python
service; on any error whatsoever — timeout, HTTP error, network failure —
resolve with the mock prediction instead of propagating. The service-call
outcome is an input; the buffer and file name only feed the request. -/
def analyzAsset (fileBuffer : List ℕ) (fileName : List Char)
    (platforms : List (List Char)) (outcome : Except ApiError MockResult)
    (g : Rng) : MockResult :=
  match outcome with
  | Except.ok r => r
  | Except.error _ => getMockPrediction platforms g

/-! Section: Helper lemmas: object lookups, rounding bounds -/

theorem jsGet_mem {κ α : Type} [DecidableEq κ] {m : List (κ × α)} {k : κ} {v : α}
    (h : jsGet m k = some v) : ∃ kv ∈ m, kv.2 = v := by
  induction m with
  | nil => cases h
  | cons kv rest ih =>
    by_cases hk : kv.1 = k
    · rw [jsGet, if_pos hk, Option.some.injEq] at h
      exact ⟨kv, List.mem_cons_self kv rest, h⟩
    · rw [jsGet, if_neg hk] at h
      rcases ih h with ⟨kv2, hm, hv⟩
      exact ⟨kv2, List.mem_cons_of_mem _ hm, hv⟩

theorem jsGet_map_replace {κ α : Type} [DecidableEq κ] (m : List (κ × α)) (k k' : κ)
    (v : α) (h : k' ≠ k) :
    jsGet (m.map (fun kv => if kv.1 = k then (k, v) else kv)) k' = jsGet m k' := by
  induction m with
  | nil => rfl
  | cons kv rest ih =>
    have hkk : ¬ (k = k') := fun hkk2 => h hkk2.symm
    rw [List.map_cons]
    by_cases hk : kv.1 = k
    · have hkv : ¬ (kv.1 = k') := by rw [hk]; exact hkk
      rw [if_pos hk, jsGet, if_neg hkk, jsGet, if_neg hkv]
      exact ih
    · by_cases hk' : kv.1 = k'
      · rw [if_neg hk, jsGet, if_pos hk', jsGet, if_pos hk']
      · rw [if_neg hk, jsGet, if_neg hk', jsGet, if_neg hk']
        exact ih

theorem jsGet_append_single {κ α : Type} [DecidableEq κ] (m : List (κ × α)) (k k' : κ)
    (v : α) (h : k' ≠ k) : jsGet (m ++ [(k, v)]) k' = jsGet m k' := by
  have hkk : ¬ (k = k') := fun hkk2 => h hkk2.symm
  induction m with
  | nil =>
    simp only [List.nil_append, jsGet]
    rw [if_neg hkk]
  | cons kv rest ih =>
    rw [List.cons_append]
    simp only [jsGet]
    by_cases hk' : kv.1 = k'
    · rw [if_pos hk', if_pos hk']
    · rw [if_neg hk', if_neg hk']
      exact ih

theorem jsGet_append_self {κ α : Type} [DecidableEq κ] (m : List (κ × α)) (k : κ) (v : α)
    (hnk : ∀ kv ∈ m, ¬ kv.1 = k) : jsGet (m ++ [(k, v)]) k = some v := by
  induction m with
  | nil =>
    simp [jsGet]
  | cons kv rest ih =>
    rw [List.cons_append]
    simp only [jsGet]
    rw [if_neg (hnk kv (List.mem_cons_self kv rest))]
    exact ih (fun x hx => hnk x (List.mem_cons_of_mem kv hx))

theorem jsGet_map_replace_self {κ α : Type} [DecidableEq κ] (m : List (κ × α)) (k : κ)
    (v : α) (hx : ∃ kv ∈ m, kv.1 = k) :
    jsGet (m.map (fun kv => if kv.1 = k then (k, v) else kv)) k = some v := by
  induction m with
  | nil =>
    rcases hx with ⟨kv, hmem, _⟩
    cases hmem
  | cons kv rest ih =>
    rw [List.map_cons]
    by_cases hk : kv.1 = k
    · rw [if_pos hk]
      simp [jsGet]
    · rw [if_neg hk]
      simp only [jsGet]
      rw [if_neg hk]
      rcases hx with ⟨x, hmem, hxk⟩
      rcases List.mem_cons.mp hmem with rfl | h2
      · exact absurd hxk hk
      · exact ih ⟨x, h2, hxk⟩

theorem jsGet_upsert_self {κ α : Type} [DecidableEq κ] (m : List (κ × α)) (k : κ) (v : α) :
    jsGet (upsert m k v) k = some v := by
  unfold upsert
  by_cases h : m.any (fun kv => kv.1 = k) = true
  · rw [if_pos h]
    rcases List.any_eq_true.mp h with ⟨x, hx, hxk⟩
    simp only [decide_eq_true_eq] at hxk
    exact jsGet_map_replace_self m k v ⟨x, hx, hxk⟩
  · rw [if_neg h]
    exact jsGet_append_self m k v (fun kv hkv hkk =>
      h (List.any_eq_true.mpr ⟨kv, hkv, by simp [hkk]⟩))

theorem jsGet_upsert_other {κ α : Type} [DecidableEq κ] (m : List (κ × α)) (k k' : κ)
    (v : α) (h : k' ≠ k) : jsGet (upsert m k v) k' = jsGet m k' := by
  unfold upsert
  by_cases hmem : m.any (fun kv => kv.1 = k) = true
  · rw [if_pos hmem]
    exact jsGet_map_replace m k k' v h
  · rw [if_neg hmem]
    exact jsGet_append_single m k k' v h

theorem jsGet_foldl_not_mem {κ α : Type} [DecidableEq κ] (f : κ → α)
    (l : List κ) (acc : List (κ × α)) (p : κ) (h : p ∉ l) :
    jsGet (l.foldl (fun a q => upsert a q (f q)) acc) p = jsGet acc p := by
  induction l generalizing acc with
  | nil => rfl
  | cons q rest ih =>
    have hq : p ≠ q := fun hpq => h (hpq ▸ List.mem_cons_self q rest)
    have hrest : p ∉ rest := fun hr => h (List.mem_cons_of_mem q hr)
    rw [List.foldl_cons, ih _ hrest, jsGet_upsert_other _ _ _ _ hq]

theorem jsGet_foldl_mem {κ α : Type} [DecidableEq κ] (f : κ → α)
    (l : List κ) (acc : List (κ × α)) (p : κ) (h : p ∈ l) :
    jsGet (l.foldl (fun a q => upsert a q (f q)) acc) p = some (f p) := by
  induction l generalizing acc with
  | nil => cases h
  | cons q rest ih =>
    by_cases hrest : p ∈ rest
    · rw [List.foldl_cons]; exact ih _ hrest
    · have hpq : p = q := by
        rcases List.mem_cons.mp h with rfl | hr
        · rfl
        · exact absurd hr hrest
      subst hpq
      rw [List.foldl_cons, jsGet_foldl_not_mem f rest _ p hrest, jsGet_upsert_self]

theorem jsRound_nonneg {x : ℚ} (h : 0 ≤ x) : 0 ≤ jsRound x := by
  unfold jsRound
  have : (0 : ℤ) ≤ ⌊x + 1/2⌋ := Int.floor_nonneg.mpr (by linarith)
  exact_mod_cast this

theorem jsRound_le {x : ℚ} {n : ℤ} (h : x ≤ n) : jsRound x ≤ (n : ℚ) := by
  unfold jsRound
  have h2 : ⌊x + 1/2⌋ < n + 1 := by
    rw [Int.floor_lt]
    push_cast
    linarith
  have h3 : ⌊x + 1/2⌋ ≤ n := by omega
  exact_mod_cast h3

/-- A value clamped by JS Math.min 10 of Math.max 0 of an integer-valued
rational is an integer between 0 and 10. -/
theorem clamp0_10_bounds (m : ℤ) :
    0 ≤ min (10 : ℚ) (max 0 (m : ℚ)) ∧ min (10 : ℚ) (max 0 (m : ℚ)) ≤ 10 ∧
      (min (10 : ℚ) (max 0 (m : ℚ))).den = 1 := by
  refine ⟨le_min (by norm_num) (le_max_left 0 _), min_le_left _ _, ?_⟩
  have : min (10 : ℚ) (max 0 (m : ℚ)) = ((min 10 (max 0 m) : ℤ) : ℚ) := by
    push_cast
    rfl
  rw [this]
  exact Rat.den_intCast _

/-- A value clamped by JS Math.max 1 of Math.min 10 of an integer-valued
rational is an integer between 1 and 10. -/
theorem clamp1_10_bounds (m : ℤ) :
    1 ≤ max (1 : ℚ) (min 10 (m : ℚ)) ∧ max (1 : ℚ) (min 10 (m : ℚ)) ≤ 10 ∧
      (max (1 : ℚ) (min 10 (m : ℚ))).den = 1 := by
  refine ⟨le_max_left 1 _, max_le (by norm_num) (min_le_left _ _), ?_⟩
  have : max (1 : ℚ) (min 10 (m : ℚ)) = ((max 1 (min 10 m) : ℤ) : ℚ) := by
    push_cast
    rfl
  rw [this]
  exact Rat.den_intCast _

/-! Section: Concrete fixtures used by witnesses and counterexamples -/

/-- An image upload, so the analysis takes the two-provider-call path. -/
def sampleImageFile : UploadFile := { name := strL "test.png", ftype := strL "image/png" }

/-- A provider failure that is neither a 429 status nor an
insufficient_quota code. -/
def networkError : ApiError :=
  { status := some 500, code := none, message := strL "Network Error" }

/-- A provider failure carrying HTTP status 429. -/
def quotaError : ApiError :=
  { status := some 429, code := none, message := strL "Rate limit" }

/-- A JSON object payload with a trailing comma: it ends with a closing
brace, so the code's conditional repair does not fire and the parse fails,
while the spec's repair-on-parse-failure would strip the comma and succeed. -/
def trailingCommaPayload : List Char :=
  [lbrace, quoteChar, 'a', quoteChar, ':', '1', ',', rbrace]

/-! Section: The claims -/

/-- C3, counterexample: on a payload with a trailing comma before its final
closing brace, the code returns the default fragment — its repair runs only
when the cleaned payload does not end with a closing brace, before the single
parse attempt — while the spec's described repair-on-parse-failure with one
retry would strip the comma and parse successfully. -/
theorem normalizeContent_trailing_comma_diverges :
    normalizeContent trailingCommaPayload = defaultContentFragment ∧
    normalizeContentSpec trailingCommaPayload = Json.obj [(['a'], Json.num 1)] ∧
    Json.firstKey (normalizeContent trailingCommaPayload)
      ≠ Json.firstKey (normalizeContentSpec trailingCommaPayload) := by
  refine ⟨rfl, rfl, ?_⟩
  decide

/-- C3, amended: the normalizer cleans the payload, applies the brace-append
and trailing-comma repair only when the cleaned payload is non-empty and does
not end with a closing brace, and parses once; every input yields either a
successfully parsed value or the documented default fragment — no exception
escapes, for any input string. -/
theorem normalizeContent_parses_or_defaults (raw : List Char) :
    (∃ j, parseJson (repairTruncated (cleanPayload raw)) = some j ∧
      normalizeContent raw = j) ∨
    normalizeContent raw = defaultContentFragment := by
  rcases h : parseJson (repairTruncated (cleanPayload raw)) with _ | j
  · right
    unfold normalizeContent
    rw [h]
  · left
    exact ⟨j, rfl, by unfold normalizeContent; rw [h]⟩

/-- C4: when the provider call fails with HTTP status 429 or the
insufficient_quota code, analyzeContentWithOpenAI throws the distinct
SUBSCRIPTION_EXPIRED error to its caller; no default report is substituted
for this error class. -/
theorem analyzeContent_subscription_error_propagates (f : UploadFile)
    (platforms : List (List Char)) (call1 call2 : Except ApiError (Option (List Char)))
    (e : ApiError)
    (herr : performOpenAIAnalysis f platforms call1 call2 = Except.error e)
    (hquota : e.status = some 429 ∨ e.code = some (strL "insufficient_quota")) :
    analyzeContentWithOpenAI f platforms call1 call2
      = Except.error subscriptionExpiredError := by
  unfold analyzeContentWithOpenAI
  rw [herr]
  dsimp only
  rw [if_pos hquota]

/-- C4, witness: a 429 failure of the first provider call on an image upload
surfaces as the SUBSCRIPTION_EXPIRED error. -/
theorem analyzeContent_subscription_error_witness :
    analyzeContentWithOpenAI sampleImageFile [strL "instagram"]
      (Except.error quotaError) (Except.ok none)
      = Except.error subscriptionExpiredError :=
  analyzeContent_subscription_error_propagates sampleImageFile [strL "instagram"]
    (Except.error quotaError) (Except.ok none) quotaError rfl (Or.inl rfl)

/-- C5, counterexample: in the OpenAI backend a plain provider failure (a
network error) is propagated — the entry point resolves with an error, not
with a complete default report, contradicting the claim that any provider
failure is absorbed by default substitution. -/
theorem openai_provider_failure_propagates :
    (analyzeContentWithOpenAI sampleImageFile [strL "instagram"]
      (Except.error networkError) (Except.ok none)).isOk = false ∧
    analyzeContentWithOpenAI sampleImageFile [strL "instagram"]
      (Except.error networkError) (Except.ok none) = Except.error networkError :=
  ⟨rfl, rfl⟩

/-- C5, amended: in the classifier-ensemble backend every failure of the
Python-service call is non-fatal — ModelService.analyzAsset resolves with the
mock prediction in its place — while a successful call's payload is passed
through; the OpenAI backend instead re-throws provider failures (see the
counterexample). -/
theorem analyzAsset_substitutes_mock (fileBuffer : List ℕ) (fileName : List Char)
    (platforms : List (List Char)) (g : Rng) (e : ApiError) (r : MockResult) :
    analyzAsset fileBuffer fileName platforms (Except.error e) g
      = getMockPrediction platforms g ∧
    analyzAsset fileBuffer fileName platforms (Except.ok r) g = r :=
  ⟨rfl, rfl⟩

/-- C7: with a valid session and a file present, an empty platforms list is
rejected with the 400 response No platforms selected, and zero provider calls
are issued. -/
theorem empty_platforms_rejected_before_provider_calls (email : List Char)
    (hemail : email ≠ []) (f : UploadFile)
    (call1 call2 : Except ApiError (Option (List Char))) :
    handlePredictPost (some email) (some f) (some []) call1 call2
      = (RouteResponse.badRequest (strL "No platforms selected"), 0) := by
  unfold handlePredictPost
  dsimp only
  rw [if_neg hemail]
  norm_num

/-- C7, witness: a concrete authorized request with an empty platform list
gets the 400 response and makes zero provider calls. -/
theorem empty_platforms_rejected_witness :
    handlePredictPost (some (strL "user@optiminastic.com")) (some sampleImageFile)
      (some []) (Except.ok none) (Except.ok none)
      = (RouteResponse.badRequest (strL "No platforms selected"), 0) :=
  empty_platforms_rejected_before_provider_calls (strL "user@optiminastic.com")
    (by decide) sampleImageFile (Except.ok none) (Except.ok none)

/-- C8: normalization is a pure transformation — equal raw payloads produce
equal normalized outputs, for the content normalizer, the platform
normalizer, and the default-filling result assembly alike. The code regions
contain no random or effectful call, which is what lets them be embedded as
functions at all. -/
theorem normalization_is_pure (raw raw2 : List Char) (ca ca2 : Json)
    (recs recs2 : List (List Char × PlatformRec)) (platforms : List (List Char))
    (h1 : raw = raw2) (h2 : ca = ca2) (h3 : recs = recs2) :
    normalizeContent raw = normalizeContent raw2 ∧
    normalizePlatform ca platforms raw = normalizePlatform ca2 platforms raw2 ∧
    buildResult ca recs = buildResult ca2 recs2 := by
  subst h1
  subst h2
  subst h3
  exact ⟨rfl, rfl, rfl⟩

/-- C8, witness: feeding the spec's truncated payload twice through the
normalizer stages gives identical outputs. -/
theorem normalization_is_pure_witness :
    normalizeContent (lbrace :: strL "\"a\":1,\"b\":" ++ [lbrace] ++ strL "\"c\":2")
      = normalizeContent (lbrace :: strL "\"a\":1,\"b\":" ++ [lbrace] ++ strL "\"c\":2") ∧
    normalizePlatform Json.null [strL "instagram"]
        (lbrace :: strL "\"a\":1,\"b\":" ++ [lbrace] ++ strL "\"c\":2")
      = normalizePlatform Json.null [strL "instagram"]
        (lbrace :: strL "\"a\":1,\"b\":" ++ [lbrace] ++ strL "\"c\":2") ∧
    buildResult defaultContentFragment [] = buildResult defaultContentFragment [] :=
  normalization_is_pure _ _ defaultContentFragment defaultContentFragment [] []
    [strL "instagram"] rfl rfl rfl

/-- C1, counterexample: requesting only the unknown platform myspace still
yields instagram as a key of platformFitAnalysis — that map always carries
the six fixed catalog keys, not the requested set. -/
theorem platformFitAnalysis_not_request_keys :
    strL "instagram" ∈ (buildAnalysis (videoAnalysisResult []) [strL "myspace"]
      sampleImageFile).platformFitAnalysis.map Prod.fst ∧
    strL "instagram" ∉ [strL "myspace"] := by
  constructor
  · left
  · decide

/-- C1, amended: for every analysis result and request, the report's
tailoredRecommendations keys are exactly the requested platform ids, each
present exactly once; platformFitAnalysis instead always carries the six
fixed keys instagram, tiktok, linkedin, twitter, facebook, snapchat,
regardless of the request. -/
theorem report_key_sets (aiResult : ContentAnalysisResult)
    (platforms : List (List Char)) (f : UploadFile) :
    (buildAnalysis aiResult platforms f).platformFitAnalysis.map Prod.fst
      = [strL "instagram", strL "tiktok", strL "linkedin", strL "twitter",
         strL "facebook", strL "snapchat"] ∧
    ((buildAnalysis aiResult platforms f).tailoredRecommendations.map Prod.fst).Nodup ∧
    ∀ k, k ∈ (buildAnalysis aiResult platforms f).tailoredRecommendations.map Prod.fst
      ↔ k ∈ platforms := by
  refine ⟨rfl, ?_, ?_⟩
  · exact fromEntries_keys_nodup _
  · intro k
    show k ∈ (fromEntries (platforms.map fun platform =>
      (platform, tailoredRecFor aiResult platform))).map Prod.fst ↔ k ∈ platforms
    rw [fromEntries_keys_mem]
    simp [List.map_map, Function.comp]

/-- The falsy-or of two values in a range stays in the range. -/
theorem jsOr0_mem {x d a b : ℚ} (hx0 : a ≤ x) (hx1 : x ≤ b)
    (hd0 : a ≤ d) (hd1 : d ≤ b) : a ≤ jsOr0 x d ∧ jsOr0 x d ≤ b := by
  unfold jsOr0
  split
  · exact ⟨hd0, hd1⟩
  · exact ⟨hx0, hx1⟩

/-- A clamp between 0 and 10 stays between 0 and 10, whatever is clamped. -/
theorem clampQ0_10 (x : ℚ) :
    0 ≤ min (10 : ℚ) (max 0 x) ∧ min (10 : ℚ) (max 0 x) ≤ 10 :=
  ⟨le_min (by norm_num) (le_max_left 0 x), min_le_left _ _⟩

/-- One platformFitAnalysis value lies between 0 and 100 whenever the
overall score does, the platform weight is at most one, and every
provider-supplied platform score does. -/
theorem platformFitScore_bounds (aiResult : ContentAnalysisResult) (p : String) (m : ℚ)
    (hm0 : 0 ≤ m) (hm1 : m ≤ 1)
    (hov0 : 0 ≤ aiResult.overallScore) (hov1 : aiResult.overallScore ≤ 100)
    (hrecs : ∀ kv ∈ aiResult.platformRecommendations, ∀ s, kv.2.score = some s →
      0 ≤ s ∧ s ≤ 100) :
    0 ≤ platformFitScore aiResult p m ∧ platformFitScore aiResult p m ≤ 100 := by
  unfold platformFitScore
  cases hb : (jsGet aiResult.platformRecommendations (strL p)).bind (fun r => r.score) with
  | none =>
    simp only [Option.getD]
    have hor := jsOr0_mem (a := 0) (b := 100) (d := 60) hov0 hov1 (by norm_num) (by norm_num)
    have hmul0 : 0 ≤ jsOr0 aiResult.overallScore 60 * m := mul_nonneg hor.1 hm0
    have hmul1 : jsOr0 aiResult.overallScore 60 * m ≤ 100 :=
      le_trans (mul_le_of_le_one_right hor.1 hm1) hor.2
    refine ⟨jsRound_nonneg hmul0, ?_⟩
    have := jsRound_le (n := 100) (by exact_mod_cast hmul1)
    simpa using this
  | some s =>
    simp only [Option.getD]
    rcases Option.bind_eq_some.mp hb with ⟨r, hget, hscore⟩
    rcases jsGet_mem hget with ⟨kv, hkv, hsnd⟩
    exact hrecs kv hkv s (by rw [hsnd]; exact hscore)

/-- C2, counterexample: on the video-analysis result the assembled report's
brandSafety.score is 76 — a percentage, far outside the claimed [0,1] bound
for confidence and probability fields. -/
theorem brandSafety_score_not_probability :
    (buildAnalysis (videoAnalysisResult []) [strL "instagram"]
      sampleImageFile).brandSafety.score = 76 ∧
    ¬ (buildAnalysis (videoAnalysisResult []) [strL "instagram"]
      sampleImageFile).brandSafety.score ≤ 1 := by
  have h : (buildAnalysis (videoAnalysisResult []) [strL "instagram"]
      sampleImageFile).brandSafety.score = 76 := by
    show min 95 (jsRound (jsOr0 (videoAnalysisResult []).overallScore 50 * (19 / 20))) = 76
    norm_num [videoAnalysisResult, jsOr0, jsRound, min_def]
  refine ⟨h, ?_⟩
  rw [h]
  norm_num

/-- C2, amended: in every assembled report the five brand-design category
scores are, unconditionally, integers clamped into [0,10]; brandSafety.score
is never above 95 and is non-negative whenever the overall score is (a
percentage scale, not a [0,1] probability); clarityOfMessage and
viralityLikelihood are the constants 85 and 70; and — because provider
scores are passed through without clamping — the platform-fit values and
engagementPotential lie in [0,100] provided the provider-supplied platform
scores and the overall score do, and contentIdentification.confidence lies
in [0,1] provided the provider confidence does. -/
theorem report_score_bounds (aiResult : ContentAnalysisResult)
    (platforms : List (List Char)) (f : UploadFile) :
    (0 ≤ (buildAnalysis aiResult platforms f).brandDesignEvaluation.designConsistency.score ∧
      (buildAnalysis aiResult platforms f).brandDesignEvaluation.designConsistency.score ≤ 10 ∧
      (buildAnalysis aiResult platforms f).brandDesignEvaluation.designConsistency.score.den = 1) ∧
    (0 ≤ (buildAnalysis aiResult platforms f).brandDesignEvaluation.formatAndSize.score ∧
      (buildAnalysis aiResult platforms f).brandDesignEvaluation.formatAndSize.score ≤ 10 ∧
      (buildAnalysis aiResult platforms f).brandDesignEvaluation.formatAndSize.score.den = 1) ∧
    (0 ≤ (buildAnalysis aiResult platforms f).brandDesignEvaluation.contentClarity.score ∧
      (buildAnalysis aiResult platforms f).brandDesignEvaluation.contentClarity.score ≤ 10 ∧
      (buildAnalysis aiResult platforms f).brandDesignEvaluation.contentClarity.score.den = 1) ∧
    (0 ≤ (buildAnalysis aiResult platforms f).brandDesignEvaluation.textAccuracy.score ∧
      (buildAnalysis aiResult platforms f).brandDesignEvaluation.textAccuracy.score ≤ 10 ∧
      (buildAnalysis aiResult platforms f).brandDesignEvaluation.textAccuracy.score.den = 1) ∧
    (0 ≤ (buildAnalysis aiResult platforms f).brandDesignEvaluation.brandPresence.score ∧
      (buildAnalysis aiResult platforms f).brandDesignEvaluation.brandPresence.score ≤ 10 ∧
      (buildAnalysis aiResult platforms f).brandDesignEvaluation.brandPresence.score.den = 1) ∧
    ((buildAnalysis aiResult platforms f).brandSafety.score ≤ 95) ∧
    (0 ≤ aiResult.overallScore → 0 ≤ (buildAnalysis aiResult platforms f).brandSafety.score) ∧
    ((buildAnalysis aiResult platforms f).performanceScoring.clarityOfMessage = 85 ∧
      (buildAnalysis aiResult platforms f).performanceScoring.viralityLikelihood = 70) ∧
    (0 ≤ aiResult.overallScore → aiResult.overallScore ≤ 100 →
      0 ≤ (buildAnalysis aiResult platforms f).performanceScoring.engagementPotential ∧
      (buildAnalysis aiResult platforms f).performanceScoring.engagementPotential ≤ 100) ∧
    (0 ≤ aiResult.overallScore → aiResult.overallScore ≤ 100 →
      (∀ kv ∈ aiResult.platformRecommendations, ∀ s, kv.2.score = some s →
        0 ≤ s ∧ s ≤ 100) →
      ∀ kv ∈ (buildAnalysis aiResult platforms f).platformFitAnalysis,
        0 ≤ kv.2 ∧ kv.2 ≤ 100) ∧
    (0 ≤ aiResult.contentType.confidence → aiResult.contentType.confidence ≤ 1 →
      0 ≤ (buildAnalysis aiResult platforms f).contentIdentification.confidence ∧
      (buildAnalysis aiResult platforms f).contentIdentification.confidence ≤ 1) := by
  refine ⟨?_, ?_, ?_, ?_, ?_, ?_, ?_, ⟨rfl, rfl⟩, ?_, ?_, ?_⟩
  · exact clamp0_10_bounds _
  · exact clamp0_10_bounds _
  · exact clamp0_10_bounds _
  · exact clamp0_10_bounds _
  · exact clamp0_10_bounds _
  · show min 95 (jsRound (jsOr0 aiResult.overallScore 50 * (19 / 20))) ≤ 95
    exact min_le_left _ _
  · intro hov0
    show 0 ≤ min 95 (jsRound (jsOr0 aiResult.overallScore 50 * (19 / 20)))
    have hor : 0 ≤ jsOr0 aiResult.overallScore 50 := by
      unfold jsOr0
      split
      · norm_num
      · exact hov0
    exact le_min (by norm_num) (jsRound_nonneg (by nlinarith [hor]))
  · intro hov0 hov1
    constructor
    · show 0 ≤ jsOr0 aiResult.overallScore 75
      exact (jsOr0_mem (a := 0) (b := 100) (d := 75) hov0 hov1 (by norm_num) (by norm_num)).1
    · show jsOr0 aiResult.overallScore 75 ≤ 100
      exact (jsOr0_mem (a := 0) (b := 100) (d := 75) hov0 hov1 (by norm_num) (by norm_num)).2
  · intro hov0 hov1 hrecs kv hkv
    simp only [buildAnalysis, List.mem_cons, List.not_mem_nil, or_false] at hkv
    rcases hkv with rfl | rfl | rfl | rfl | rfl | rfl
    · exact platformFitScore_bounds aiResult "instagram" (9 / 10) (by norm_num) (by norm_num)
        hov0 hov1 hrecs
    · exact platformFitScore_bounds aiResult "tiktok" (17 / 20) (by norm_num) (by norm_num)
        hov0 hov1 hrecs
    · exact platformFitScore_bounds aiResult "linkedin" (4 / 5) (by norm_num) (by norm_num)
        hov0 hov1 hrecs
    · exact platformFitScore_bounds aiResult "twitter" (17 / 20) (by norm_num) (by norm_num)
        hov0 hov1 hrecs
    · exact platformFitScore_bounds aiResult "facebook" (9 / 10) (by norm_num) (by norm_num)
        hov0 hov1 hrecs
    · exact platformFitScore_bounds aiResult "snapchat" (3 / 4) (by norm_num) (by norm_num)
        hov0 hov1 hrecs
  · intro hconf0 hconf1
    constructor
    · show 0 ≤ jsOr0 aiResult.contentType.confidence (3 / 4)
      exact (jsOr0_mem (a := 0) (b := 1) (d := 3 / 4) hconf0 hconf1 (by norm_num) (by norm_num)).1
    · show jsOr0 aiResult.contentType.confidence (3 / 4) ≤ 1
      exact (jsOr0_mem (a := 0) (b := 1) (d := 3 / 4) hconf0 hconf1 (by norm_num) (by norm_num)).2

/-- A Math.random stream that always draws zero. -/
def rngZero : Rng := { stream := fun _ => 0, idx := 0 }

/-- A Math.random stream that draws one half at the platform-jitter position
for instagram (the thirteenth draw) and zero everywhere else. -/
def rngJitter : Rng := { stream := fun n => if n = 12 then 1 / 2 else 0, idx := 0 }

/-- C6, counterexample: the classifier-route fallback (getMockPrediction) is
randomized — for a fixed platform list, two evaluations whose random draws
differ give different platform-fit scores: both streams select the Meme
content type (table score 85 for instagram), but the all-zeros stream draws
jitter -5, scoring 80, while the stream differing only at the jitter draw
scores 85. -/
theorem mock_fallback_not_deterministic :
    (getMockPrediction [strL "instagram"] rngZero).analysis.platformFitAnalysis.head?
      = some (strL "instagram", 80) ∧
    (getMockPrediction [strL "instagram"] rngJitter).analysis.platformFitAnalysis.head?
      = some (strL "instagram", 85) ∧
    (getMockPrediction [strL "instagram"] rngZero).analysis.platformFitAnalysis.head?
      ≠ (getMockPrediction [strL "instagram"] rngJitter).analysis.platformFitAnalysis.head? := by
  have hA : (getMockPrediction [strL "instagram"] rngZero).analysis.platformFitAnalysis.head?
      = some (strL "instagram", 80) := by
    dsimp only [getMockPrediction, Rng.next, rngZero]
    norm_num [floorIdx, jsFloor, jsOrQ, mockContentTypes, mockPlatformScores]
  have hB : (getMockPrediction [strL "instagram"] rngJitter).analysis.platformFitAnalysis.head?
      = some (strL "instagram", 85) := by
    dsimp only [getMockPrediction, Rng.next, rngJitter]
    norm_num [floorIdx, jsFloor, jsOrQ, mockContentTypes, mockPlatformScores]
  refine ⟨hA, hB, ?_⟩
  rw [hA, hB]
  intro h
  simp only [Option.some.injEq, Prod.mk.injEq] at h
  exact absurd h.2 (by norm_num)

/-- C6, amended: the OpenAI-route parse-failure fallback scorer is
deterministic — for every requested platform it produces exactly one entry
whose score is round(round(confidence·100)·multiplier), a fixed function of
the first-stage confidence and the static content-type-by-platform
multiplier, with two fixed optimization tips; the classifier-route mock
fallback, by contrast, is randomized (see the counterexample). -/
theorem fallback_scorer_deterministic (ca : Json) (platforms : List (List Char))
    (p : List Char) (hp : p ∈ platforms) :
    jsGet (fallbackPlatformRecs ca platforms) p
      = some
        { score := some (jsRound (fallbackBaseScore ca
            * fallbackMultiplier (contentTypeLowerOf ca) p))
        , optimizations := some
            [ strL "Optimize content for " ++ p
            , strL "Follow " ++ p ++ strL " best practices" ]
        , reasoning := some (strL "Analysis based on content type: "
            ++ jStrOr ((jGet ca "contentType").bind (fun j => jGet j "type"))
              (strL "Unknown")) } := by
  unfold fallbackPlatformRecs
  exact jsGet_foldl_mem
    (fun q =>
      ({ score := some (jsRound (fallbackBaseScore ca
          * fallbackMultiplier (contentTypeLowerOf ca) q))
       , optimizations := some
          [ strL "Optimize content for " ++ q
          , strL "Follow " ++ q ++ strL " best practices" ]
       , reasoning := some (strL "Analysis based on content type: "
          ++ jStrOr ((jGet ca "contentType").bind (fun j => jGet j "type"))
            (strL "Unknown")) } : PlatformRec))
    platforms [] p hp

/-- C6, witness: the fallback entry for instagram on a null first-stage
analysis, exactly the deterministic formula. -/
theorem fallback_scorer_deterministic_witness :
    jsGet (fallbackPlatformRecs Json.null [strL "instagram"]) (strL "instagram")
      = some
        { score := some (jsRound (fallbackBaseScore Json.null
            * fallbackMultiplier (contentTypeLowerOf Json.null) (strL "instagram")))
        , optimizations := some
            [ strL "Optimize content for " ++ strL "instagram"
            , strL "Follow " ++ strL "instagram" ++ strL " best practices" ]
        , reasoning := some (strL "Analysis based on content type: "
            ++ jStrOr ((jGet Json.null "contentType").bind (fun j => jGet j "type"))
              (strL "Unknown")) } :=
  fallback_scorer_deterministic Json.null [strL "instagram"] (strL "instagram")
    (List.mem_singleton.mpr rfl)

/-- C10: every PredictionResult either route constructs has an integer
successScore in range — the OpenAI route clamps its converted raw score into
0..10, and the classifier-route mock clamps its into 1..10 — whatever the
magnitude of the underlying platform score, overall score, or random
draws. -/
theorem successScore_always_clamped (aiResult : ContentAnalysisResult)
    (platforms : List (List Char)) (g : Rng) :
    ((buildPredictions aiResult platforms).all
      (fun p => decide (0 ≤ p.successScore ∧ p.successScore ≤ 10 ∧
        p.successScore.den = 1)) = true) ∧
    (((getMockPrediction platforms g).predictions).all
      (fun p => decide (1 ≤ p.successScore ∧ p.successScore ≤ 10 ∧
        p.successScore.den = 1)) = true) := by
  constructor
  · rw [List.all_eq_true]
    intro p hp
    unfold buildPredictions at hp
    rw [List.mem_map] at hp
    obtain ⟨platform, _hmem, rfl⟩ := hp
    rw [decide_eq_true_eq]
    exact clamp0_10_bounds _
  · rw [List.all_eq_true]
    intro p hp
    dsimp only [getMockPrediction, Rng.next] at hp
    rw [List.mem_map] at hp
    obtain ⟨platform, _hmem, rfl⟩ := hp
    rw [decide_eq_true_eq]
    exact clamp1_10_bounds _

end CSPredictor
